import Mathlib

/-!
Verification development for the pullus-bi-dashboard aggregation core.

The Python source is shallowly embedded: floats are modelled as exact
rationals (ℚ), Python strings as lists of characters, `None`-able values
as `Option`, and the ambient "current year" (`datetime.now().year`) is
hoisted into an explicit parameter.  Sheet I/O (gspread) is outside the
model: the fetch stages are modelled from the point where the full cell
grid (`get_all_values()`, a rectangular grid padded with empty strings)
is in hand.
-/

set_option maxRecDepth 4000

namespace Pullus

-- Batteries ships the core rational operations `@[irreducible]`, which
-- blocks `decide`-style evaluation of concrete aggregates; restore the
-- default reducibility locally so kernel evaluation can proceed.
attribute [local semireducible] Rat.mul Rat.add Rat.inv Rat.sub

/-- Python string, modelled as a list of characters. -/
abbrev Str := List Char

/-- Round-half-to-even of a rational to an integer
(the behaviour of Python `round` on an exact value). -/
def roundHalfEven (q : ℚ) : ℤ :=
  let f : ℤ := ⌊q⌋
  let frac : ℚ := q - f
  if frac < 1/2 then f
  else if 1/2 < frac then f + 1
  else if f % 2 = 0 then f else f + 1

/-- Python `round(q, n)`: banker's rounding at `n` decimal places,
on the exact rational model of the float. -/
def pyRound (q : ℚ) (n : ℕ) : ℚ :=
  (roundHalfEven (q * (10 : ℚ) ^ n) : ℚ) / (10 : ℚ) ^ n

/-- Python `int()` truncation toward zero of a rational. -/
def pyInt (q : ℚ) : ℤ := Int.tdiv q.num (q.den : ℤ)

/-- Truthiness of a Python `Optional[float]`: `None` and `0.0` are falsy. -/
def truthyQ : Option ℚ → Bool
  | none => false
  | some q => q != 0

-- ---------- string utilities ----------

/-- Python `str.strip()` on the left: drop leading whitespace. -/
def stripL (s : Str) : Str := s.dropWhile Char.isWhitespace

/-- Python `str.strip()`: drop leading and trailing whitespace. -/
def strip (s : Str) : Str :=
  (stripL ((stripL s).reverse)).reverse

/-- Python `str.replace(",", "")`: remove every comma. -/
def dropCommas (s : Str) : Str := s.filter (fun c => c != ',')

/-- Python `str.lower()` (ASCII case folding, which covers the data). -/
def lowerStr (s : Str) : Str := s.map Char.toLower

/-- Does `pat` occur as a contiguous substring of `s` (Python `pat in s`)? -/
def containsSub (pat : Str) : Str → Bool
  | [] => pat.isPrefixOf []
  | c :: t => pat.isPrefixOf (c :: t) || containsSub pat t

/-- Helper for `splitOnSub`: scan for the first occurrence of the
separator `s0 :: srest`, accumulating the chars before it (reversed)
in `acc`.  Structural recursion on a fuel bound (`fuel ≥ s.length`
always holds from the entry point, so the fuel never runs out). -/
def splitOnGo (s0 : Char) (srest : Str) : ℕ → Str → Str → List Str
  | _, [], acc => [acc.reverse]
  | 0, _ :: _, acc => [acc.reverse]
  | fuel + 1, c :: t, acc =>
    if (s0 :: srest).isPrefixOf (c :: t) then
      acc.reverse :: splitOnGo s0 srest fuel (List.drop srest.length t) []
    else
      splitOnGo s0 srest fuel t (c :: acc)

/-- Python `str.split(sep)` for a nonempty separator:
non-overlapping, left to right.  (Python raises on an empty separator;
the empty case is unreachable from the callers here.) -/
def splitOnSub (sep s : Str) : List Str :=
  match sep with
  | [] => [s]
  | c0 :: cr => splitOnGo c0 cr s.length s []

-- ---------- Python float() literal grammar ----------

/-- Digit value of a character, if it is a decimal digit. -/
def digitVal (c : Char) : Option ℕ :=
  if c.isDigit then some (c.toNat - 48) else none

/-- Read a maximal run of decimal digits; returns (value, digit count, rest). -/
def readDigits : Str → ℕ × ℕ × Str
  | [] => (0, 0, [])
  | c :: t =>
    match digitVal c with
    | none => (0, 0, c :: t)
    | some v =>
      let r := readDigits t
      (v * 10 ^ r.2.1 + r.1, r.2.1 + 1, r.2.2)

/-- Parse an optional sign; returns (sign as ±1, rest). -/
def readSign : Str → ℚ × Str
  | '+' :: t => (1, t)
  | '-' :: t => (-1, t)
  | s => (1, s)

/-- The numeric core of the Python `float()` literal grammar:
`digits [. digits]` or `. digits`, applied after the sign.
Returns the magnitude and the unconsumed rest.
(Non-finite literals such as `inf`/`nan` and digit underscores are outside
the model; no claim touches them.) -/
def readMantissa (s : Str) : Option (ℚ × Str) :=
  let ip := readDigits s
  match ip.2.2 with
  | '.' :: t =>
    let fp := readDigits t
    if ip.2.1 = 0 ∧ fp.2.1 = 0 then none
    else some ((ip.1 : ℚ) + (fp.1 : ℚ) / (10 : ℚ) ^ fp.2.1, fp.2.2)
  | rest =>
    if ip.2.1 = 0 then none else some ((ip.1 : ℚ), rest)

/-- Optional exponent part `(e|E) [sign] digits` of the float grammar. -/
def readExponent (m : ℚ) : Str → Option (ℚ × Str)
  | 'e' :: t =>
    let sg := readSign t
    let d := readDigits sg.2
    if d.2.1 = 0 then none
    else some (if sg.1 = 1 then m * (10 : ℚ) ^ d.1 else m / (10 : ℚ) ^ d.1, d.2.2)
  | 'E' :: t =>
    let sg := readSign t
    let d := readDigits sg.2
    if d.2.1 = 0 then none
    else some (if sg.1 = 1 then m * (10 : ℚ) ^ d.1 else m / (10 : ℚ) ^ d.1, d.2.2)
  | s => some (m, s)

/-- Python `float(s)` on an already-stripped string: `some` value, or
`none` when the literal is malformed (Python raises `ValueError`). -/
def pyFloat (s : Str) : Option ℚ :=
  let sg := readSign s
  match readMantissa sg.2 with
  | none => none
  | some (m, rest) =>
    match readExponent m rest with
    | none => none
    | some (v, rest2) => if rest2 = [] then some (sg.1 * v) else none

/-- `safe_float` (src/helpers.py): strip thousands separators and
whitespace, parse as a float, return `0.0` on any failure. -/
def safe_float (val : Str) : ℚ :=
  (pyFloat (strip (dropCommas val))).getD 0

-- ---------- calendar dates ----------

/-- A calendar date as produced by `datetime.strptime` (the time
components are always midnight here and are dropped). -/
structure PyDate where
  year : ℕ
  month : ℕ
  day : ℕ
  deriving DecidableEq, Repr

/-- Gregorian leap year (as in Python `calendar.isleap`). -/
def isLeap (y : ℕ) : Bool := y % 4 == 0 && (y % 100 != 0 || y % 400 == 0)

/-- Days in a month of a given year. -/
def daysInMonth (y m : ℕ) : ℕ :=
  match m with
  | 1 => 31 | 2 => if isLeap y then 29 else 28 | 3 => 31 | 4 => 30
  | 5 => 31 | 6 => 30 | 7 => 31 | 8 => 31
  | 9 => 30 | 10 => 31 | 11 => 30 | 12 => 31
  | _ => 0

/-- The constraints `datetime(year, month, day)` enforces
(`MINYEAR = 1`, `MAXYEAR = 9999`). -/
def validDate (y m d : ℕ) : Bool :=
  1 ≤ y && y ≤ 9999 && 1 ≤ m && m ≤ 12 && 1 ≤ d && d ≤ daysInMonth y m

/-- Construct a date as `datetime()` does: `None` models the
`ValueError` that `strptime` lets escape to `parse_date`'s handler. -/
def mkDate (y m d : ℕ) : Option PyDate :=
  if validDate y m d then some ⟨y, m, d⟩ else none

/-- Lexicographic strict order on dates (how `datetime` compares). -/
def dateLt (a b : PyDate) : Prop :=
  a.year < b.year ∨ (a.year = b.year ∧
    (a.month < b.month ∨ (a.month = b.month ∧ a.day < b.day)))

instance : DecidableRel dateLt := fun a b => by unfold dateLt; infer_instance

/-- Days in years `1 .. y-1` of the proleptic Gregorian calendar
(CPython `datetime._days_before_year`). -/
def daysBeforeYear (y : ℕ) : ℕ :=
  let n := y - 1
  365 * n + n / 4 - n / 100 + n / 400

/-- Days in the months of `y` strictly before month `m`
(CPython `datetime._days_before_month`). -/
def daysBeforeMonth (y m : ℕ) : ℕ :=
  (match m with
   | 1 => 0 | 2 => 31 | 3 => 59 | 4 => 90 | 5 => 120 | 6 => 151
   | 7 => 181 | 8 => 212 | 9 => 243 | 10 => 273 | 11 => 304 | _ => 334)
  + (if 3 ≤ m ∧ isLeap y then 1 else 0)

/-- CPython `datetime.toordinal`: day 1 is 0001-01-01 (a Monday). -/
def toOrdinal (dt : PyDate) : ℕ :=
  daysBeforeYear dt.year + daysBeforeMonth dt.year dt.month + dt.day

/-- CPython `datetime._isoweek1monday`: ordinal of the Monday of ISO
week 1 of `year`. -/
def isoweek1monday (year : ℕ) : ℤ :=
  let firstday : ℤ := (daysBeforeYear year + 1 : ℕ)
  let firstweekday : ℤ := (firstday + 6).emod 7
  let week1monday := firstday - firstweekday
  if 3 < firstweekday then week1monday + 7 else week1monday

/-- CPython `datetime.isocalendar`, returning (ISO year, ISO week). -/
def isocalendar (dt : PyDate) : ℕ × ℕ :=
  let today : ℤ := toOrdinal dt
  let week : ℤ := (today - isoweek1monday dt.year).ediv 7
  if week < 0 then
    (dt.year - 1, ((today - isoweek1monday (dt.year - 1)).ediv 7 + 1).toNat)
  else if 52 ≤ week ∧ isoweek1monday (dt.year + 1) ≤ today then
    (dt.year + 1, 1)
  else
    (dt.year, (week + 1).toNat)

-- ---------- strptime-style format parsers ----------

/-- `strptime` field `%d` / `%m`: the regex `3[01]|[12]\d|0[1-9]|[1-9]`
(resp. `1[0-2]|0[1-9]|[1-9]`) consumes two digits when they form a value
in `1..maxv`, otherwise one nonzero digit.  (No backtracking is needed:
in every format used here a numeric field is followed by a non-digit
literal, so a failing two-digit match can never be rescued.) -/
def pNum2 (maxv : ℕ) : Str → Option (ℕ × Str)
  | [] => none
  | c1 :: rest =>
    match digitVal c1 with
    | none => none
    | some v1 =>
      match rest with
      | c2 :: rest2 =>
        match digitVal c2 with
        | some v2 =>
          let two := v1 * 10 + v2
          if 1 ≤ two ∧ two ≤ maxv then some (two, rest2)
          else if 1 ≤ v1 then some (v1, c2 :: rest2) else none
        | none => if 1 ≤ v1 then some (v1, c2 :: rest2) else none
      | [] => if 1 ≤ v1 then some (v1, []) else none

/-- `%d`: day field. -/
def pDay (s : Str) : Option (ℕ × Str) := pNum2 31 s

/-- `%m`: month-number field. -/
def pMonth (s : Str) : Option (ℕ × Str) := pNum2 12 s

/-- `%Y`: exactly four digits (`strptime` regex `\d\d\d\d`). -/
def pYear4 : Str → Option (ℕ × Str)
  | a :: b :: c :: d :: rest =>
    match digitVal a, digitVal b, digitVal c, digitVal d with
    | some va, some vb, some vc, some vd =>
      some (va * 1000 + vb * 100 + vc * 10 + vd, rest)
    | _, _, _, _ => none
  | _ => none

/-- A literal character of the format. -/
def pLit (ch : Char) : Str → Option Str
  | [] => none
  | c :: t => if c = ch then some t else none

/-- Whitespace in a `strptime` format matches `\s+` (one or more). -/
def pWs : Str → Option Str
  | [] => none
  | c :: t =>
    if c.isWhitespace then some (t.dropWhile Char.isWhitespace) else none

/-- Case-insensitive prefix strip; `pat` is stored lowercase. -/
def stripPrefixCI : Str → Str → Option Str
  | [], s => some s
  | _ :: _, [] => none
  | p :: ps, c :: cs => if c.toLower = p then stripPrefixCI ps cs else none

/-- Try a name table in order (the `strptime` regex alternation). -/
def pName (tbl : List (Str × ℕ)) (s : Str) : Option (ℕ × Str) :=
  match tbl with
  | [] => none
  | (nm, v) :: rest =>
    match stripPrefixCI nm s with
    | some r => some (v, r)
    | none => pName rest s

/-- `%b`: abbreviated month names (all length 3, so alternation order
is immaterial); matching is case-insensitive. -/
def monthAbbrevTbl : List (Str × ℕ) :=
  [("jan".data, 1), ("feb".data, 2), ("mar".data, 3), ("apr".data, 4),
   ("may".data, 5), ("jun".data, 6), ("jul".data, 7), ("aug".data, 8),
   ("sep".data, 9), ("oct".data, 10), ("nov".data, 11), ("dec".data, 12)]

def pAbbrev (s : Str) : Option (ℕ × Str) := pName monthAbbrevTbl s

/-- `%B`: full month names, longest first as `strptime` builds the
alternation (no name is a prefix of another, so order is immaterial). -/
def monthFullTbl : List (Str × ℕ) :=
  [("september".data, 9), ("february".data, 2), ("november".data, 11),
   ("december".data, 12), ("january".data, 1), ("october".data, 10),
   ("august".data, 8), ("march".data, 3), ("april".data, 4),
   ("june".data, 6), ("july".data, 7), ("may".data, 5)]

def pFull (s : Str) : Option (ℕ × Str) := pName monthFullTbl s

/-- Final step shared by all formats: the regex must consume the whole
string, then `datetime()` validates the fields. -/
def finishDate : Option (ℕ × ℕ × ℕ × Str) → Option PyDate
  | none => none
  | some (y, m, d, rest) => if rest = [] then mkDate y m d else none

/-- Raw field extraction for `"%d-%b-%Y"`. -/
def raw1 (s : Str) : Option (ℕ × ℕ × ℕ × Str) := do
  let (d, s) ← pDay s
  let s ← pLit '-' s
  let (m, s) ← pAbbrev s
  let s ← pLit '-' s
  let (y, s) ← pYear4 s
  pure (y, m, d, s)

/-- Raw field extraction for `"%Y-%m-%d"`. -/
def raw2 (s : Str) : Option (ℕ × ℕ × ℕ × Str) := do
  let (y, s) ← pYear4 s
  let s ← pLit '-' s
  let (m, s) ← pMonth s
  let s ← pLit '-' s
  let (d, s) ← pDay s
  pure (y, m, d, s)

/-- Raw field extraction for `"%m/%d/%Y"`. -/
def raw3 (s : Str) : Option (ℕ × ℕ × ℕ × Str) := do
  let (m, s) ← pMonth s
  let s ← pLit '/' s
  let (d, s) ← pDay s
  let s ← pLit '/' s
  let (y, s) ← pYear4 s
  pure (y, m, d, s)

/-- Raw field extraction for `"%d/%m/%Y"`. -/
def raw4 (s : Str) : Option (ℕ × ℕ × ℕ × Str) := do
  let (d, s) ← pDay s
  let s ← pLit '/' s
  let (m, s) ← pMonth s
  let s ← pLit '/' s
  let (y, s) ← pYear4 s
  pure (y, m, d, s)

/-- Raw field extraction for `"%d %b %Y"`. -/
def raw5 (s : Str) : Option (ℕ × ℕ × ℕ × Str) := do
  let (d, s) ← pDay s
  let s ← pWs s
  let (m, s) ← pAbbrev s
  let s ← pWs s
  let (y, s) ← pYear4 s
  pure (y, m, d, s)

/-- Raw field extraction for `"%b %d, %Y"`. -/
def raw6 (s : Str) : Option (ℕ × ℕ × ℕ × Str) := do
  let (m, s) ← pAbbrev s
  let s ← pWs s
  let (d, s) ← pDay s
  let s ← pLit ',' s
  let s ← pWs s
  let (y, s) ← pYear4 s
  pure (y, m, d, s)

/-- Raw field extraction for `"%Y/%m/%d"`. -/
def raw7 (s : Str) : Option (ℕ × ℕ × ℕ × Str) := do
  let (y, s) ← pYear4 s
  let s ← pLit '/' s
  let (m, s) ← pMonth s
  let s ← pLit '/' s
  let (d, s) ← pDay s
  pure (y, m, d, s)

/-- Raw field extraction for `"%d-%m-%Y"`. -/
def raw8 (s : Str) : Option (ℕ × ℕ × ℕ × Str) := do
  let (d, s) ← pDay s
  let s ← pLit '-' s
  let (m, s) ← pMonth s
  let s ← pLit '-' s
  let (y, s) ← pYear4 s
  pure (y, m, d, s)

/-- Raw field extraction for `"%d %B %Y"`. -/
def raw9 (s : Str) : Option (ℕ × ℕ × ℕ × Str) := do
  let (d, s) ← pDay s
  let s ← pWs s
  let (m, s) ← pFull s
  let s ← pWs s
  let (y, s) ← pYear4 s
  pure (y, m, d, s)

/-- Raw field extraction for `"%B %d, %Y"`. -/
def raw10 (s : Str) : Option (ℕ × ℕ × ℕ × Str) := do
  let (m, s) ← pFull s
  let s ← pWs s
  let (d, s) ← pDay s
  let s ← pLit ',' s
  let s ← pWs s
  let (y, s) ← pYear4 s
  pure (y, m, d, s)

def fmt1 (s : Str) : Option PyDate := finishDate (raw1 s)
def fmt2 (s : Str) : Option PyDate := finishDate (raw2 s)
def fmt3 (s : Str) : Option PyDate := finishDate (raw3 s)
def fmt4 (s : Str) : Option PyDate := finishDate (raw4 s)
def fmt5 (s : Str) : Option PyDate := finishDate (raw5 s)
def fmt6 (s : Str) : Option PyDate := finishDate (raw6 s)
def fmt7 (s : Str) : Option PyDate := finishDate (raw7 s)
def fmt8 (s : Str) : Option PyDate := finishDate (raw8 s)
def fmt9 (s : Str) : Option PyDate := finishDate (raw9 s)
def fmt10 (s : Str) : Option PyDate := finishDate (raw10 s)

/-- A Python value that may or may not be a string.  A non-string makes
`val.strip()` raise `AttributeError`, which `parse_date` catches. -/
inductive PyVal where
  | str (s : Str)
  | nonStr
  deriving DecidableEq

/-- `parse_date` (src/helpers.py): try the fixed ordered format list
against the stripped input; first success wins; `None` when every
format fails or the input is not a string. -/
def parse_date : PyVal → Option PyDate
  | .nonStr => none
  | .str s =>
    let v := strip s
    fmt1 v <|> fmt2 v <|> fmt3 v <|> fmt4 v <|> fmt5 v <|>
      fmt6 v <|> fmt7 v <|> fmt8 v <|> fmt9 v <|> fmt10 v

-- ---------- strftime-style encoders (for the round-trip claim) ----------

/-- Two-digit zero-padded numeral (`strftime` `%d`, `%m`). -/
def pad2 (n : ℕ) : Str := [Nat.digitChar (n / 10), Nat.digitChar (n % 10)]

/-- Four-digit zero-padded numeral (`strftime` `%Y` for years ≥ 1000;
below 1000 the padding is platform-dependent, so the round-trip
statement assumes `1000 ≤ year`). -/
def pad4 (n : ℕ) : Str :=
  [Nat.digitChar (n / 1000 % 10), Nat.digitChar (n / 100 % 10),
   Nat.digitChar (n / 10 % 10), Nat.digitChar (n % 10)]

/-- Capitalized abbreviated month name (`strftime` `%b`). -/
def monthAbbrev (m : ℕ) : Str :=
  match m with
  | 1 => "Jan".data | 2 => "Feb".data | 3 => "Mar".data | 4 => "Apr".data
  | 5 => "May".data | 6 => "Jun".data | 7 => "Jul".data | 8 => "Aug".data
  | 9 => "Sep".data | 10 => "Oct".data | 11 => "Nov".data | _ => "Dec".data

/-- Capitalized full month name (`strftime` `%B`). -/
def monthFull (m : ℕ) : Str :=
  match m with
  | 1 => "January".data | 2 => "February".data | 3 => "March".data
  | 4 => "April".data | 5 => "May".data | 6 => "June".data
  | 7 => "July".data | 8 => "August".data | 9 => "September".data
  | 10 => "October".data | 11 => "November".data | _ => "December".data

/-- The ten supported patterns of `parse_date`, in trial order. -/
inductive DatePattern where
  | dDashBDashY   -- "%d-%b-%Y"
  | yDashMDashD   -- "%Y-%m-%d"
  | mSlashDSlashY -- "%m/%d/%Y"
  | dSlashMSlashY -- "%d/%m/%Y"
  | dSpBSpY       -- "%d %b %Y"
  | bSpDCommaY    -- "%b %d, %Y"
  | ySlashMSlashD -- "%Y/%m/%d"
  | dDashMDashY   -- "%d-%m-%Y"
  | dSpBetaSpY    -- "%d %B %Y"
  | betaSpDCommaY -- "%B %d, %Y"
  deriving DecidableEq

/-- Encode a date with a given pattern, as `strftime` would. -/
def encode (p : DatePattern) (dt : PyDate) : Str :=
  match p with
  | .dDashBDashY =>
    pad2 dt.day ++ '-' :: (monthAbbrev dt.month ++ '-' :: pad4 dt.year)
  | .yDashMDashD =>
    pad4 dt.year ++ '-' :: (pad2 dt.month ++ '-' :: pad2 dt.day)
  | .mSlashDSlashY =>
    pad2 dt.month ++ '/' :: (pad2 dt.day ++ '/' :: pad4 dt.year)
  | .dSlashMSlashY =>
    pad2 dt.day ++ '/' :: (pad2 dt.month ++ '/' :: pad4 dt.year)
  | .dSpBSpY =>
    pad2 dt.day ++ ' ' :: (monthAbbrev dt.month ++ ' ' :: pad4 dt.year)
  | .bSpDCommaY =>
    monthAbbrev dt.month ++ ' ' :: (pad2 dt.day ++ ',' :: ' ' :: pad4 dt.year)
  | .ySlashMSlashD =>
    pad4 dt.year ++ '/' :: (pad2 dt.month ++ '/' :: pad2 dt.day)
  | .dDashMDashY =>
    pad2 dt.day ++ '-' :: (pad2 dt.month ++ '-' :: pad4 dt.year)
  | .dSpBetaSpY =>
    pad2 dt.day ++ ' ' :: (monthFull dt.month ++ ' ' :: pad4 dt.year)
  | .betaSpDCommaY =>
    monthFull dt.month ++ ' ' :: (pad2 dt.day ++ ',' :: ' ' :: pad4 dt.year)

/-- What `parse_date` actually recovers from `encode p dt`: the
`"%d/%m/%Y"` encoding of a date with `day ≤ 12` is captured first by
the earlier `"%m/%d/%Y"` pattern, swapping day and month; every other
pattern round-trips exactly. -/
def roundTripResult (p : DatePattern) (dt : PyDate) : PyDate :=
  match p with
  | .dSlashMSlashY =>
    if dt.day ≤ 12 then ⟨dt.year, dt.day, dt.month⟩ else dt
  | _ => dt

-- ---------- price normalizers ----------

/-- `parse_price` (src/competitor_selling.py): `None` for blank input;
a string containing `/` is split and the positive parts averaged with
`round(·, 0)`; otherwise the single parsed value if positive, else `None`. -/
def parse_price (val : Str) : Option ℚ :=
  if strip val = [] then none
  else
    let v := strip val
    if containsSub ['/'] v then
      let parts := ((splitOnSub ['/'] v).map safe_float).filter (fun p => 0 < p)
      if parts = [] then none
      else some (pyRound (parts.sum / (parts.length : ℚ)) 0)
    else
      let p := safe_float v
      if 0 < p then some p else none

/-- `parse_buying_price` (src/competitor_buying.py): like `parse_price`
but commas are removed first and the range separator is `" - "`. -/
def parse_buying_price (val : Str) : Option ℚ :=
  if strip val = [] then none
  else
    let v := dropCommas (strip val)
    if containsSub (' ' :: '-' :: [' ']) v then
      let parts := ((splitOnSub (' ' :: '-' :: [' ']) v).map safe_float).filter (fun p => 0 < p)
      if parts = [] then none
      else some (pyRound (parts.sum / (parts.length : ℚ)) 0)
    else
      let p := safe_float v
      if 0 < p then some p else none

-- ---------- shared aggregation helpers ----------

/-- Update the value at `k` in an insertion-ordered association list
(the behaviour of a Python `defaultdict`: existing key updated in
place, new key appended; `d` is the default). -/
def updateA {κ α : Type} [DecidableEq κ] (k : κ) (f : α → α) (d : α) :
    List (κ × α) → List (κ × α)
  | [] => [(k, f d)]
  | (k', v) :: t =>
    if k' = k then (k', f v) :: t else (k', v) :: updateA k f d t

/-- Python `min` over a list of dates (first element wins ties, which
is invisible for structurally equal dates). -/
def minDate : List PyDate → PyDate
  | [] => ⟨0, 0, 0⟩
  | h :: t => t.foldl (fun a b => if dateLt b a then b else a) h

/-- Python `max` over a list of dates. -/
def maxDate : List PyDate → PyDate
  | [] => ⟨0, 0, 0⟩
  | h :: t => t.foldl (fun a b => if dateLt a b then b else a) h

/-- Python `min` over a list of rationals. -/
def minQ : List ℚ → ℚ
  | [] => 0
  | h :: t => t.foldl (fun a b => if b < a then b else a) h

/-- Python `max` over a list of rationals. -/
def maxQ : List ℚ → ℚ
  | [] => 0
  | h :: t => t.foldl (fun a b => if a < b then b else a) h

/-- Distinct elements of a list, first occurrences kept in order
(models `len(set(...))` via its length). -/
def dedupKeep (l : List PyDate) : List PyDate :=
  l.foldl (fun acc d => if d ∈ acc then acc else acc ++ [d]) []

/-- Lexicographic strict order on char lists
(Python string comparison by code point). -/
def strLtB : Str → Str → Bool
  | [], [] => false
  | [], _ :: _ => true
  | _ :: _, [] => false
  | a :: as, b :: bs =>
    if a.toNat < b.toNat then true
    else if a = b then strLtB as bs else false

/-- Sort key order for `(iso_year, iso_week)` buckets. -/
def wkLe (a b : ℕ × ℕ) : Prop := a.1 < b.1 ∨ (a.1 = b.1 ∧ a.2 ≤ b.2)

instance : DecidableRel wkLe := fun a b => by unfold wkLe; infer_instance

/-- Sort key order for `(date, location)` buckets: Python tuple
comparison, datetime first, then string. -/
def sellKeyLe (a b : PyDate × Str) : Prop :=
  dateLt a.1 b.1 ∨ (a.1 = b.1 ∧ (strLtB a.2 b.2 = true ∨ a.2 = b.2))

instance : DecidableRel sellKeyLe := fun a b => by unfold sellKeyLe; infer_instance

-- ---------- competitor selling (src/competitor_selling.py) ----------

/-- The `PRODUCTS` list: column header → tracked product. -/
inductive Product where
  | wholeChicken -- "Whole Chicken"
  | gizzard      -- "Gizzard"
  deriving DecidableEq

def PRODUCTS : List Product := [.wholeChicken, .gizzard]

/-- One record from `fetch_competitor_data`: parsed date, location,
brand, and a parsed price per tracked product. -/
structure SellRecord where
  date : PyDate
  location : Str
  brand : Str
  price : Product → Option ℚ

/-- Per-bucket accumulator of `aggregate_by_date_location`. -/
structure SellAcc where
  pullus : Product → List ℚ
  comps : Product → List ℚ
  compBrands : List Str

def emptySellAcc : SellAcc := ⟨fun _ => [], fun _ => [], []⟩

/-- Add one record's present prices to a bucket accumulator
(the body of the grouping loop). -/
def addSell (r : SellRecord) (acc : SellAcc) : SellAcc :=
  PRODUCTS.foldl
    (fun acc p =>
      match r.price p with
      | none => acc
      | some price =>
        if lowerStr r.brand = "pullus".data then
          { acc with
            pullus := fun q => if q = p then acc.pullus q ++ [price] else acc.pullus q }
        else
          { acc with
            comps := fun q => if q = p then acc.comps q ++ [price] else acc.comps q,
            compBrands :=
              if r.brand ∈ acc.compBrands then acc.compBrands
              else acc.compBrands ++ [r.brand] })
    acc

/-- One output row of `aggregate_by_date_location`. -/
structure SellRow where
  date : PyDate
  location : Str
  compBrands : ℕ
  pullusPrice : Product → Option ℚ
  compAvg : Product → Option ℚ
  diffPct : Product → Option ℚ

/-- Build the output row for one `(date, location)` bucket. -/
def buildSellRow (kv : (PyDate × Str) × SellAcc) : SellRow :=
  let acc := kv.2
  let pullusPrice := fun p =>
    let l := acc.pullus p
    if l = [] then none else some (pyRound (l.sum / (l.length : ℚ)) 0)
  let compAvg := fun p =>
    let l := acc.comps p
    if l = [] then none else some (pyRound (l.sum / (l.length : ℚ)) 0)
  { date := kv.1.1
    location := kv.1.2
    compBrands := acc.compBrands.length
    pullusPrice := pullusPrice
    compAvg := compAvg
    diffPct := fun p =>
      -- `if pullus_price and comp_avg and comp_avg > 0`
      match pullusPrice p, compAvg p with
      | some pv, some cv =>
        if pv ≠ 0 ∧ cv ≠ 0 ∧ 0 < cv then
          some (pyRound ((pv - cv) / cv * 100) 1)
        else none
      | _, _ => none }

/-- `aggregate_by_date_location`: group records by `(date, location)`,
then emit one row per bucket in sorted key order. -/
def aggregate_by_date_location (records : List SellRecord) : List SellRow :=
  let groups := records.foldl
    (fun g r => updateA (r.date, r.location) (addSell r) emptySellAcc g) []
  (groups.insertionSort (fun a b => sellKeyLe a.1 b.1)).map buildSellRow

-- ---------- competitor buying (src/competitor_buying.py) ----------

/-- One record produced by `fetch_buying_data`. -/
structure BuyRecord where
  date : PyDate
  state : Str
  competitor : Str
  productType : Str
  compPrice : Option ℚ
  pullusPrice : Option ℚ
  notes : Str
  deriving DecidableEq, Repr

/-- Python `str.title()`: a letter is uppercased when the previous
character is not a letter, lowercased otherwise. -/
def titleGo (prevAlpha : Bool) : Str → Str
  | [] => []
  | c :: t =>
    if c.isAlpha then
      (if prevAlpha then c.toLower else c.toUpper) :: titleGo true t
    else c :: titleGo false t

def titleStr (s : Str) : Str := titleGo false s

/-- Cell access into one sheet row.  `get_all_values()` returns a
rectangular grid padded with empty strings, so out-of-range access
cannot occur; `getD` with `""` is the faithful total model. -/
def cellAt (row : List Str) (i : ℕ) : Str := row.getD i []

/-- Header-row search: index of the first row with a cell containing
`"Entry ID"` (the `enumerate` loop with early `break`). -/
def findHeaderIdx : List (List Str) → Option ℕ
  | [] => none
  | row :: rest =>
    if row.any (fun c => containsSub "Entry ID".data c) then some 0
    else (findHeaderIdx rest).map (· + 1)

/-- The column map `{h.strip(): i}` with `.get(name, dflt)`: a Python
dict comprehension keeps the LAST index for a duplicated header. -/
def colMapGet (header : List Str) (name : Str) (dflt : ℕ) : ℕ :=
  match (header.enum.filter (fun p => strip p.2 = name)).getLast? with
  | some p => p.1
  | none => dflt

/-- `fetch_buying_data`, modelled from the full cell grid: locate the
header row, then keep rows with a parseable current-year date and a
non-blank competitor name. -/
def fetch_buying_data (currentYear : ℕ) (rows : List (List Str)) :
    List BuyRecord :=
  match findHeaderIdx rows with
  | none => []
  | some hidx =>
    let header := rows.getD hidx []
    let data := rows.drop (hidx + 1)
    data.filterMap (fun row =>
      match parse_date (.str (cellAt row (colMapGet header "Date".data 1))) with
      | none => none
      | some dt =>
        if dt.year ≠ currentYear then none
        else
          let competitor := strip (cellAt row (colMapGet header "Competitor Name".data 5))
          let productType := titleStr (strip (cellAt row (colMapGet header "Product Type".data 6)))
          let compPrice := parse_buying_price (cellAt row (colMapGet header "Competitor Price (N)".data 7))
          let pullusPrice := parse_buying_price (cellAt row (colMapGet header "Pullus Price (N)".data 8))
          let notesIdx := colMapGet header "Notes".data 9
          let notes := if notesIdx < row.length then strip (cellAt row notesIdx) else []
          let state := strip (cellAt row (colMapGet header "State".data 4))
          if competitor = [] then none
          else some ⟨dt, state, competitor, productType, compPrice, pullusPrice, notes⟩)

/-- The summary record returned by `compute_summary`.  Note the means
and the differential are plain numbers in the code: `0`, not `None`,
is the value when no record contributes. -/
structure BuySummary where
  avgPullus : ℚ
  avgComp : ℚ
  diffPct : ℚ
  diffAbs : ℚ
  totalEntries : ℕ
  dressedEntries : ℕ
  liveEntries : ℕ
  liveCompPrices : List ℚ
  deriving DecidableEq

/-- `compute_summary`: dressed-bird rollup of the buying records. -/
def compute_summary (records : List BuyRecord) : BuySummary :=
  let dressed := records.filter (fun r => r.productType = "Dressed Birds".data)
  let live := records.filter (fun r => r.productType = "Live Birds".data)
  let pullusPrices := dressed.filterMap
    (fun r => if truthyQ r.pullusPrice then r.pullusPrice else none)
  let compPrices := dressed.filterMap
    (fun r => if truthyQ r.compPrice then r.compPrice else none)
  let avgPullus :=
    if pullusPrices = [] then 0
    else pyRound (pullusPrices.sum / (pullusPrices.length : ℚ)) 0
  let avgComp :=
    if compPrices = [] then 0
    else pyRound (compPrices.sum / (compPrices.length : ℚ)) 0
  let diffPct :=
    if avgComp ≠ 0 then pyRound ((avgPullus - avgComp) / avgComp * 100) 1 else 0
  { avgPullus := avgPullus
    avgComp := avgComp
    diffPct := diffPct
    diffAbs := pyRound (avgPullus - avgComp) 0
    totalEntries := records.length
    dressedEntries := dressed.length
    liveEntries := live.length
    liveCompPrices := live.filterMap
      (fun r => if truthyQ r.compPrice then r.compPrice else none) }

-- ---------- weekly purchase (src/weekly_purchase.py) ----------

/-- Per-week accumulator of `aggregate_weekly`. -/
structure WeekAcc where
  birds : ℤ
  chickenWt : ℚ
  gizzardWt : ℚ
  dates : List PyDate

def emptyWeekAcc : WeekAcc := ⟨0, 0, 0, []⟩

/-- One output row of `aggregate_weekly` (`start`/`end` renamed to
`startDate`/`endDate`; `end` is reserved in Lean). -/
structure WeekRow where
  year : ℕ
  week : ℕ
  startDate : PyDate
  endDate : PyDate
  purchaseDays : ℕ
  birds : ℤ
  chickenWt : ℚ
  gizzardWt : ℚ
  totalWt : ℚ
  avgBirdsDay : ℚ
  avgWtDay : ℚ
  birdsWow : Option ℚ
  wtWow : Option ℚ
  deriving DecidableEq, Repr

/-- Source sheet column indices (`COL_DATE = 0`, `COL_BIRDS = 5`,
`COL_CHICKEN_WT = 8`, `COL_GIZZARD_WT = 9`). -/
def COL_DATE : ℕ := 0
def COL_BIRDS : ℕ := 5
def COL_CHICKEN_WT : ℕ := 8
def COL_GIZZARD_WT : ℕ := 9

/-- The grouping loop body of `aggregate_weekly` for one kept row. -/
def addWeekly (row : List Str) (dt : PyDate) (acc : WeekAcc) : WeekAcc :=
  { birds := acc.birds +
      (if cellAt row COL_BIRDS ≠ [] then pyInt (safe_float (cellAt row COL_BIRDS)) else 0)
    chickenWt := acc.chickenWt + safe_float (cellAt row COL_CHICKEN_WT)
    gizzardWt := acc.gizzardWt + safe_float (cellAt row COL_GIZZARD_WT)
    dates := acc.dates ++ [dt] }

/-- Build the phase-1 output row for one week bucket (delta fields
still absent, modelled as `none`). -/
def buildWeekRow (kv : (ℕ × ℕ) × WeekAcc) : WeekRow :=
  let vals := kv.2
  let purchaseDays := (dedupKeep vals.dates).length
  let totalWt := pyRound (vals.chickenWt + vals.gizzardWt) 2
  { year := kv.1.1
    week := kv.1.2
    startDate := minDate vals.dates
    endDate := maxDate vals.dates
    purchaseDays := purchaseDays
    birds := vals.birds
    chickenWt := pyRound vals.chickenWt 2
    gizzardWt := pyRound vals.gizzardWt 2
    totalWt := totalWt
    avgBirdsDay := pyRound ((vals.birds : ℚ) / (purchaseDays : ℚ)) 1
    avgWtDay := pyRound (totalWt / (purchaseDays : ℚ)) 2
    birdsWow := none
    wtWow := none }

/-- Phase 2 of `aggregate_weekly`: week-over-week percentages against
the previous row of the sorted series; the first row keeps `None`. -/
def addWowWeekly (l : List WeekRow) : List WeekRow :=
  match l with
  | [] => []
  | first :: rest =>
    first :: (l.zip rest).map (fun pc =>
      let prev := pc.1
      let cur := pc.2
      { cur with
        birdsWow :=
          if prev.avgBirdsDay ≠ 0 then
            some (pyRound ((cur.avgBirdsDay - prev.avgBirdsDay) / prev.avgBirdsDay * 100) 1)
          else none
        wtWow :=
          if prev.avgWtDay ≠ 0 then
            some (pyRound ((cur.avgWtDay - prev.avgWtDay) / prev.avgWtDay * 100) 1)
          else none })

/-- One iteration of `aggregate_weekly`'s grouping loop: skip the row
unless its date parses and lies in the current year. -/
def weeklyStep (currentYear : ℕ) (g : List ((ℕ × ℕ) × WeekAcc)) (row : List Str) :
    List ((ℕ × ℕ) × WeekAcc) :=
  match parse_date (.str (cellAt row COL_DATE)) with
  | none => g
  | some dt =>
    if dt.year ≠ currentYear then g
    else updateA (isocalendar dt) (addWeekly row dt) emptyWeekAcc g

/-- The row gate of `aggregate_weekly`: date parses and is current-year. -/
def keepWeeklyRow (currentYear : ℕ) (row : List Str) : Bool :=
  match parse_date (.str (cellAt row COL_DATE)) with
  | none => false
  | some dt => dt.year == currentYear

/-- `aggregate_weekly`: filter to parseable current-year dates, group
by ISO `(year, week)`, emit sorted rows, then add WoW deltas. -/
def aggregate_weekly (currentYear : ℕ) (data : List (List Str)) : List WeekRow :=
  let weeks := data.foldl (weeklyStep currentYear) []
  addWowWeekly ((weeks.insertionSort (fun a b => wkLe a.1 b.1)).map buildWeekRow)

-- ---------- DOC price (src/doc_price.py) ----------

/-- Daily price statistics stored per kept row. -/
structure DayPrice where
  avg : ℚ
  mn : ℚ
  mx : ℚ

/-- Per-week accumulator of `aggregate_weekly_prices`. -/
structure PriceAcc where
  prices : List DayPrice
  dates : List PyDate

def emptyPriceAcc : PriceAcc := ⟨[], []⟩

/-- One output row of `aggregate_weekly_prices`. -/
structure PriceRow where
  year : ℕ
  week : ℕ
  startDate : PyDate
  endDate : PyDate
  entries : ℕ
  avgPrice : ℚ
  minPrice : ℚ
  maxPrice : ℚ
  spread : ℚ
  wowPct : Option ℚ
  wowAbs : Option ℚ
  deriving DecidableEq, Repr

/-- Build the phase-1 output row for one week bucket. -/
def buildPriceRow (kv : (ℕ × ℕ) × PriceAcc) : PriceRow :=
  let vals := kv.2
  let allAvgs := vals.prices.map DayPrice.avg
  let weekAvg := pyRound (allAvgs.sum / (allAvgs.length : ℚ)) 0
  let weekMin := minQ (vals.prices.map DayPrice.mn)
  let weekMax := maxQ (vals.prices.map DayPrice.mx)
  { year := kv.1.1
    week := kv.1.2
    startDate := minDate vals.dates
    endDate := maxDate vals.dates
    entries := vals.prices.length
    avgPrice := weekAvg
    minPrice := weekMin
    maxPrice := weekMax
    spread := pyRound (weekMax - weekMin) 0
    wowPct := none
    wowAbs := none }

/-- Phase 2 of `aggregate_weekly_prices`: WoW percentage and absolute
change on the weekly average; both `None` for the first row or when
the previous average is zero. -/
def addWowPrices (l : List PriceRow) : List PriceRow :=
  match l with
  | [] => []
  | first :: rest =>
    first :: (l.zip rest).map (fun pc =>
      let prev := pc.1
      let cur := pc.2
      if prev.avgPrice ≠ 0 then
        { cur with
          wowPct := some (pyRound ((cur.avgPrice - prev.avgPrice) / prev.avgPrice * 100) 1)
          wowAbs := some (pyRound (cur.avgPrice - prev.avgPrice) 0) }
      else
        { cur with wowPct := none, wowAbs := none })

/-- One iteration of `aggregate_weekly_prices`' grouping loop: skip the
row unless its date parses, lies in the current year, and at least one
supplier price is positive; otherwise add the daily average/min/max. -/
def pricesStep (currentYear : ℕ) (g : List ((ℕ × ℕ) × PriceAcc)) (row : List Str) :
    List ((ℕ × ℕ) × PriceAcc) :=
  match parse_date (.str (cellAt row 0)) with
  | none => g
  | some dt =>
    if dt.year ≠ currentYear then g
    else
      let dayPrices := (row.drop 1).filterMap
        (fun v => let p := safe_float v; if 0 < p then some p else none)
      if dayPrices = [] then g
      else
        updateA (isocalendar dt)
          (fun acc =>
            { prices := acc.prices ++
                [⟨dayPrices.sum / (dayPrices.length : ℚ), minQ dayPrices, maxQ dayPrices⟩]
              dates := acc.dates ++ [dt] })
          emptyPriceAcc g

/-- `aggregate_weekly_prices`: keep rows with a parseable current-year
date and at least one positive supplier price; group the daily
averages by ISO week; emit sorted rows with WoW deltas. -/
def aggregate_weekly_prices (currentYear : ℕ) (data : List (List Str)) :
    List PriceRow :=
  let weeks := data.foldl (pricesStep currentYear) []
  addWowPrices ((weeks.insertionSort (fun a b => wkLe a.1 b.1)).map buildPriceRow)

-- ---------- specification-side views used by the theorems ----------

/-- The `" - "` range separator of `parse_buying_price`. -/
def sepDash : Str := [' ', '-', ' ']

/-- Association-list lookup (first match), for stating what the
`defaultdict` grouping holds at a key. -/
def lookupA {κ α : Type} [DecidableEq κ] (k : κ) : List (κ × α) → Option α
  | [] => none
  | (k', v) :: t => if k' = k then some v else lookupA k t

/-- The Pullus prices contributing to bucket `(dt, loc)` for product
`p`: records of that key whose brand is `pullus` (case-insensitively)
and whose price for `p` is present, in record order. -/
def pullusContrib (records : List SellRecord) (dt : PyDate) (loc : Str)
    (p : Product) : List ℚ :=
  (records.filter (fun r =>
      decide (r.date = dt) && decide (r.location = loc) &&
      decide (lowerStr r.brand = "pullus".data))).filterMap (fun r => r.price p)

/-- The competitor prices contributing to bucket `(dt, loc)` for
product `p`. -/
def compContrib (records : List SellRecord) (dt : PyDate) (loc : Str)
    (p : Product) : List ℚ :=
  (records.filter (fun r =>
      decide (r.date = dt) && decide (r.location = loc) &&
      !decide (lowerStr r.brand = "pullus".data))).filterMap (fun r => r.price p)

/-- The dressed-birds Pullus prices contributing to `compute_summary`'s
rollup (present and nonzero, per the code's truthiness filter). -/
def dressedPullusContrib (records : List BuyRecord) : List ℚ :=
  (records.filter (fun r => decide (r.productType = "Dressed Birds".data))).filterMap
    (fun r => if truthyQ r.pullusPrice then r.pullusPrice else none)

/-- The dressed-birds competitor prices contributing to
`compute_summary`'s rollup. -/
def dressedCompContrib (records : List BuyRecord) : List ℚ :=
  (records.filter (fun r => decide (r.productType = "Dressed Birds".data))).filterMap
    (fun r => if truthyQ r.compPrice then r.compPrice else none)

lemma parse_buying_price_blank {v : Str} (h : strip v = []) :
    parse_buying_price v = none := by
  unfold parse_buying_price
  rw [if_pos h]

lemma parse_price_blank {v : Str} (h : strip v = []) :
    parse_price v = none := by
  unfold parse_price
  rw [if_pos h]

lemma parse_buying_price_range {v : Str} {a b : ℚ} (hne : ¬strip v = [])
    (hsplit : (splitOnSub sepDash (dropCommas (strip v))).map safe_float = [a, b])
    (hc : containsSub sepDash (dropCommas (strip v)) = true)
    (ha : 0 < a) (hb : 0 < b) :
    parse_buying_price v = some (pyRound ((a + b) / 2) 0) := by
  unfold parse_buying_price
  rw [if_neg hne]
  simp only [sepDash] at hsplit hc
  simp [hc, hsplit, List.filter, decide_eq_true ha, decide_eq_true hb]

lemma parse_price_range {v : Str} {a b : ℚ} (hne : ¬strip v = [])
    (hsplit : (splitOnSub ['/'] (strip v)).map safe_float = [a, b])
    (hc : containsSub ['/'] (strip v) = true)
    (ha : 0 < a) (hb : 0 < b) :
    parse_price v = some (pyRound ((a + b) / 2) 0) := by
  unfold parse_price
  rw [if_neg hne]
  simp [hc, hsplit, List.filter, decide_eq_true ha, decide_eq_true hb]

lemma parse_buying_price_single {v : Str} {p : ℚ} (hne : ¬strip v = [])
    (hc : containsSub sepDash (dropCommas (strip v)) = false)
    (hp : safe_float (dropCommas (strip v)) = p) :
    parse_buying_price v = if 0 < p then some p else none := by
  unfold parse_buying_price
  rw [if_neg hne]
  simp only [sepDash] at hc
  simp [hc, hp]

lemma parse_price_single {v : Str} {p : ℚ} (hne : ¬strip v = [])
    (hc : containsSub ['/'] (strip v) = false)
    (hp : safe_float (strip v) = p) :
    parse_price v = if 0 < p then some p else none := by
  unfold parse_price
  rw [if_neg hne]
  simp [hc, hp]

/-- C4: for a price string of the form `"A - B"` (`parse_buying_price`)
or `"A/B"` (`parse_price`) whose two parts parse to positive values `a`
and `b`, the normalizer returns `round((a+b)/2, 0)` under banker's
rounding; a single numeric string is returned unchanged when positive
and `None` otherwise; blank input gives `None`. -/
theorem price_normalizer_spec :
    (∀ v, strip v = [] → parse_buying_price v = none ∧ parse_price v = none) ∧
    (∀ v a b, ¬strip v = [] →
      (splitOnSub sepDash (dropCommas (strip v))).map safe_float = [a, b] →
      containsSub sepDash (dropCommas (strip v)) = true → 0 < a → 0 < b →
      parse_buying_price v = some (pyRound ((a + b) / 2) 0)) ∧
    (∀ v a b, ¬strip v = [] →
      (splitOnSub ['/'] (strip v)).map safe_float = [a, b] →
      containsSub ['/'] (strip v) = true → 0 < a → 0 < b →
      parse_price v = some (pyRound ((a + b) / 2) 0)) ∧
    (∀ v p, ¬strip v = [] → containsSub sepDash (dropCommas (strip v)) = false →
      safe_float (dropCommas (strip v)) = p →
      parse_buying_price v = if 0 < p then some p else none) ∧
    (∀ v p, ¬strip v = [] → containsSub ['/'] (strip v) = false →
      safe_float (strip v) = p →
      parse_price v = if 0 < p then some p else none) :=
  ⟨fun _ h => ⟨parse_buying_price_blank h, parse_price_blank h⟩,
   fun _ _ _ h1 h2 h3 h4 h5 => parse_buying_price_range h1 h2 h3 h4 h5,
   fun _ _ _ h1 h2 h3 h4 h5 => parse_price_range h1 h2 h3 h4 h5,
   fun _ _ h1 h2 h3 => parse_buying_price_single h1 h2 h3,
   fun _ _ h1 h2 h3 => parse_price_single h1 h2 h3⟩

/-- Witness for C4 at the spec's own example inputs. -/
theorem price_normalizer_spec_witness :
    parse_buying_price ("3,300 - 3,500".data) = some (mkRat 3400 1) ∧
    parse_price ("3900/4000".data) = some (mkRat 3950 1) ∧
    parse_price ("250".data) = some (mkRat 250 1) ∧
    parse_buying_price ("".data) = none ∧
    parse_price ("-5".data) = none := by
  refine ⟨?_, ?_, ?_, ?_, ?_⟩
  · rw [price_normalizer_spec.2.1 ("3,300 - 3,500".data) (mkRat 3300 1) (mkRat 3500 1)
      (by decide) (by decide) (by decide) (by decide) (by decide)]
    decide
  · rw [price_normalizer_spec.2.2.1 ("3900/4000".data) (mkRat 3900 1) (mkRat 4000 1)
      (by decide) (by decide) (by decide) (by decide) (by decide)]
    decide
  · rw [price_normalizer_spec.2.2.2.2 ("250".data) (mkRat 250 1)
      (by decide) (by decide) (by decide)]
    decide
  · exact (price_normalizer_spec.1 ("".data) (by decide)).1
  · rw [price_normalizer_spec.2.2.2.2 ("-5".data) (mkRat (-5) 1)
      (by decide) (by decide) (by decide)]
    decide

-- ---------- helper lemmas: parse_date totality ----------

lemma mkDate_valid {y m d : ℕ} {dt : PyDate} (h : mkDate y m d = some dt) :
    validDate dt.year dt.month dt.day = true := by
  unfold mkDate at h
  split at h
  · cases h
    assumption
  · cases h

lemma finishDate_valid {o : Option (ℕ × ℕ × ℕ × Str)} {dt : PyDate}
    (h : finishDate o = some dt) :
    validDate dt.year dt.month dt.day = true := by
  match o with
  | none => cases h
  | some (y, m, d, rest) =>
    simp only [finishDate] at h
    by_cases hr : rest = []
    · rw [if_pos hr] at h
      exact mkDate_valid h
    · rw [if_neg hr] at h
      cases h

lemma orElse_eq_some {a b : Option PyDate} {x : PyDate}
    (h : (a <|> b) = some x) : a = some x ∨ b = some x := by
  cases a <;> simp_all

lemma parse_date_valid {v : PyVal} {dt : PyDate}
    (h : parse_date v = some dt) :
    validDate dt.year dt.month dt.day = true := by
  match v with
  | .nonStr => cases h
  | .str s =>
    unfold parse_date at h
    rcases orElse_eq_some h with h | h
    · exact finishDate_valid h
    rcases orElse_eq_some h with h | h
    · exact finishDate_valid h
    rcases orElse_eq_some h with h | h
    · exact finishDate_valid h
    rcases orElse_eq_some h with h | h
    · exact finishDate_valid h
    rcases orElse_eq_some h with h | h
    · exact finishDate_valid h
    rcases orElse_eq_some h with h | h
    · exact finishDate_valid h
    rcases orElse_eq_some h with h | h
    · exact finishDate_valid h
    rcases orElse_eq_some h with h | h
    · exact finishDate_valid h
    rcases orElse_eq_some h with h | h
    · exact finishDate_valid h
    · exact finishDate_valid h

/-- C8: the parsing helpers are total and sentinel-valued: `parse_date`
only ever returns a valid calendar date (so the invalid `"31 Feb 2025"`
yields `None` rather than an exception), a non-string input yields
`None` via the caught `AttributeError`, and `safe_float` yields `0.0`
on malformed numeric text. -/
theorem parsers_total_and_sentinel :
    (∀ v dt, parse_date v = some dt →
      validDate dt.year dt.month dt.day = true) ∧
    parse_date (.str "31 Feb 2025".data) = none ∧
    parse_date .nonStr = none ∧
    safe_float "N/A".data = 0 ∧
    safe_float "".data = 0 := by
  refine ⟨fun _ _ h => parse_date_valid h, by decide, by decide, by decide, by decide⟩

/-- Witness for C8's quantified conjunct at a concrete parse. -/
theorem parsers_total_and_sentinel_witness :
    validDate 2025 1 6 = true :=
  parsers_total_and_sentinel.1 (.str "2025-01-06".data) ⟨2025, 1, 6⟩ (by decide)

-- ---------- helper lemmas: buying fetch ----------

lemma findHeaderIdx_none {rows : List (List Str)}
    (h : ∀ row ∈ rows, ∀ c ∈ row, containsSub ("Entry ID".data) c = false) :
    findHeaderIdx rows = none := by
  induction rows with
  | nil => rfl
  | cons row rest ih =>
    unfold findHeaderIdx
    rw [if_neg, ih (fun r hr c hc => h r (List.mem_cons_of_mem _ hr) c hc)]
    · rfl
    · simp only [List.any_eq_true, not_exists, not_and, Bool.not_eq_true]
      intro c hc
      exact h row (List.mem_cons_self _ _) c hc

/-- C10: when no cell of the source sheet contains the header marker
`"Entry ID"`, `fetch_buying_data` returns an empty record list rather
than raising or misreading rows. -/
theorem fetch_buying_data_no_header :
    ∀ currentYear rows,
      (∀ row ∈ rows, ∀ c ∈ row, containsSub ("Entry ID".data) c = false) →
      fetch_buying_data currentYear rows = [] := by
  intro cy rows h
  unfold fetch_buying_data
  rw [findHeaderIdx_none h]

/-- Witness for C10 on a small concrete grid without the marker. -/
theorem fetch_buying_data_no_header_witness :
    fetch_buying_data 2025 [["Date".data, "Price".data], ["2025-01-06".data]] = [] :=
  fetch_buying_data_no_header 2025 _ (by decide)

-- ---------- helper lemmas: the row-filter gate (C7) ----------

lemma fetch_buying_record_inv {currentYear : ℕ} {rows : List (List Str)}
    {r : BuyRecord} (hr : r ∈ fetch_buying_data currentYear rows) :
    r.date.year = currentYear ∧ r.competitor ≠ [] := by
  unfold fetch_buying_data at hr
  cases hh : findHeaderIdx rows with
  | none =>
    rw [hh] at hr
    cases hr
  | some hidx =>
    rw [hh] at hr
    rcases List.mem_filterMap.mp hr with ⟨row, _, hf⟩
    cases hpd : parse_date (.str (cellAt row
        (colMapGet (rows.getD hidx []) "Date".data 1))) with
    | none =>
      rw [hpd] at hf
      cases hf
    | some dt =>
      rw [hpd] at hf
      dsimp only at hf
      by_cases hy : dt.year ≠ currentYear
      · rw [if_pos hy] at hf
        cases hf
      · rw [if_neg hy] at hf
        by_cases hcomp :
            strip (cellAt row (colMapGet (rows.getD hidx [])
              "Competitor Name".data 5)) = []
        · rw [if_pos hcomp] at hf
          cases hf
        · rw [if_neg hcomp] at hf
          cases hf
          refine ⟨?_, ?_⟩ <;> dsimp only
          · omega
          · exact hcomp

lemma foldl_filter_skip {α β : Type} (p : α → Bool) (f : β → α → β)
    (hf : ∀ b a, p a = false → f b a = b) :
    ∀ (l : List α) (b : β), l.foldl f b = (l.filter p).foldl f b := by
  intro l
  induction l with
  | nil => simp
  | cons x xs ih =>
    intro b
    by_cases hp : p x = true
    · simp [List.filter_cons, hp, ih]
    · have hfalse : p x = false := by simpa using hp
      simp [List.filter_cons, hfalse, hf b x hfalse, ih]

lemma weeklyStep_skip (currentYear : ℕ) :
    ∀ (g : List ((ℕ × ℕ) × WeekAcc)) row,
      keepWeeklyRow currentYear row = false →
      weeklyStep currentYear g row = g := by
  intro g row h
  unfold keepWeeklyRow at h
  unfold weeklyStep
  cases hpd : parse_date (.str (cellAt row COL_DATE)) with
  | none => rfl
  | some dt =>
    rw [hpd] at h
    dsimp only at h
    dsimp only
    rw [if_pos]
    simpa using h

/-- C7: the fetch/filter stage is the single gate into aggregation:
every record `fetch_buying_data` emits has a parsed date in the current
calendar year and a non-blank competitor name, and `aggregate_weekly`
is unchanged by discarding the rows its gate (parseable current-year
date) rejects — dropped rows contribute to no bucket. -/
theorem row_filter_gate :
    (∀ currentYear rows r, r ∈ fetch_buying_data currentYear rows →
      r.date.year = currentYear ∧ r.competitor ≠ []) ∧
    (∀ currentYear data,
      aggregate_weekly currentYear data =
        aggregate_weekly currentYear (data.filter (keepWeeklyRow currentYear))) := by
  constructor
  · intro _ _ _ hr
    exact fetch_buying_record_inv hr
  · intro cy data
    unfold aggregate_weekly
    rw [foldl_filter_skip (keepWeeklyRow cy) (weeklyStep cy) (weeklyStep_skip cy) data]

/-- Witness for C7 on a concrete two-row sheet: the bad-date and
blank-competitor rows are dropped; the surviving record is current-year
with a competitor name. -/
theorem row_filter_gate_witness :
    (⟨⟨2025, 1, 6⟩, "Kano".data, "Alpha Farms".data, "Dressed Birds".data,
        some (mkRat 3400 1), some (mkRat 4000 1), []⟩ : BuyRecord).date.year = 2025 ∧
    (⟨⟨2025, 1, 6⟩, "Kano".data, "Alpha Farms".data, "Dressed Birds".data,
        some (mkRat 3400 1), some (mkRat 4000 1), []⟩ : BuyRecord).competitor ≠ [] :=
  row_filter_gate.1 2025
    [["Entry ID".data, "Date".data, [], [], "State".data, "Competitor Name".data,
      "Product Type".data, "Competitor Price (N)".data, "Pullus Price (N)".data,
      "Notes".data],
     ["1".data, "06-Jan-2025".data, [], [], "Kano".data, "Alpha Farms".data,
      "dressed birds".data, "3,300 - 3,500".data, "4000".data, []],
     ["2".data, "06-Jan-2024".data, [], [], "Kano".data, "Beta".data,
      "live birds".data, "900".data, "950".data, []]]
    _ (by decide)

-- ---------- helper lemmas: bucket non-emptiness (C9) ----------

lemma updateA_inv {κ α : Type} [DecidableEq κ] (P : α → Prop) (k : κ)
    (f : α → α) (d : α) (hf : ∀ a, P (f a)) :
    ∀ l : List (κ × α), (∀ kv ∈ l, P kv.2) →
      ∀ kv ∈ updateA k f d l, P kv.2 := by
  intro l
  induction l with
  | nil =>
    intro _ kv hkv
    unfold updateA at hkv
    rw [List.mem_singleton] at hkv
    subst hkv
    exact hf d
  | cons hd tl ih =>
    intro hl kv hkv
    unfold updateA at hkv
    by_cases he : hd.1 = k
    · rw [if_pos he] at hkv
      rcases List.mem_cons.mp hkv with h | h
      · subst h
        exact hf hd.2
      · exact hl kv (List.mem_cons_of_mem _ h)
    · rw [if_neg he] at hkv
      rcases List.mem_cons.mp hkv with h | h
      · subst h
        exact hl hd (List.mem_cons_self _ _)
      · exact ih (fun kv hkv => hl kv (List.mem_cons_of_mem _ hkv)) kv h

lemma foldl_pres {α β : Type} (P : β → Prop) (f : β → α → β)
    (hf : ∀ b a, P b → P (f b a)) :
    ∀ (l : List α) (b : β), P b → P (l.foldl f b) := by
  intro l
  induction l with
  | nil => exact fun b hb => hb
  | cons x xs ih => exact fun b hb => ih (f b x) (hf b x hb)

lemma weekly_groups_dates_ne_nil {currentYear : ℕ} {data : List (List Str)} :
    ∀ kv ∈ data.foldl (weeklyStep currentYear) [], kv.2.dates ≠ [] := by
  refine foldl_pres
    (fun g : List ((ℕ × ℕ) × WeekAcc) => ∀ kv ∈ g, kv.2.dates ≠ [])
    (weeklyStep currentYear) ?_ data [] (by simp)
  intro g row hg
  unfold weeklyStep
  cases parse_date (.str (cellAt row COL_DATE)) with
  | none => exact hg
  | some dt =>
    dsimp only
    by_cases hy : dt.year ≠ currentYear
    · rw [if_pos hy]
      exact hg
    · rw [if_neg hy]
      exact updateA_inv (fun acc : WeekAcc => acc.dates ≠ []) _ _ _
        (fun acc => by simp [addWeekly]) g hg

lemma prices_groups_prices_ne_nil {currentYear : ℕ} {data : List (List Str)} :
    ∀ kv ∈ data.foldl (pricesStep currentYear) [], kv.2.prices ≠ [] := by
  refine foldl_pres
    (fun g : List ((ℕ × ℕ) × PriceAcc) => ∀ kv ∈ g, kv.2.prices ≠ [])
    (pricesStep currentYear) ?_ data [] (by simp)
  intro g row hg
  unfold pricesStep
  cases parse_date (.str (cellAt row 0)) with
  | none => exact hg
  | some dt =>
    dsimp only
    by_cases hy : dt.year ≠ currentYear
    · rw [if_pos hy]
      exact hg
    · rw [if_neg hy]
      split
      · exact hg
      · exact updateA_inv (fun acc : PriceAcc => acc.prices ≠ []) _ _ _
          (fun acc => by simp) g hg

lemma dedupKeep_ne_nil {l : List PyDate} (h : l ≠ []) : dedupKeep l ≠ [] := by
  have key : ∀ (t : List PyDate) (acc : List PyDate), acc ≠ [] →
      t.foldl (fun acc d => if d ∈ acc then acc else acc ++ [d]) acc ≠ [] := by
    intro t
    induction t with
    | nil => exact fun acc ha => ha
    | cons x xs ih =>
      intro acc ha
      refine ih _ ?_
      dsimp only
      split
      · exact ha
      · simp
  match l with
  | [] => exact absurd rfl h
  | d :: t =>
    unfold dedupKeep
    simp only [List.foldl_cons, List.mem_nil_iff, if_false, List.nil_append]
    exact key t [d] (by simp)

lemma addWowWeekly_purchaseDays {l : List WeekRow} {w : WeekRow}
    (h : w ∈ addWowWeekly l) : ∃ w' ∈ l, w.purchaseDays = w'.purchaseDays := by
  unfold addWowWeekly at h
  match l with
  | [] => cases h
  | first :: rest =>
    rcases List.mem_cons.mp h with h | h
    · exact ⟨first, List.mem_cons_self _ _, by rw [h]⟩
    · rcases List.mem_map.mp h with ⟨pc, hpc, hw⟩
      refine ⟨pc.2, List.mem_cons_of_mem _ (List.of_mem_zip hpc).2, ?_⟩
      rw [← hw]

lemma addWowPrices_entries {l : List PriceRow} {w : PriceRow}
    (h : w ∈ addWowPrices l) : ∃ w' ∈ l, w.entries = w'.entries := by
  unfold addWowPrices at h
  match l with
  | [] => cases h
  | first :: rest =>
    rcases List.mem_cons.mp h with h | h
    · exact ⟨first, List.mem_cons_self _ _, by rw [h]⟩
    · rcases List.mem_map.mp h with ⟨pc, hpc, hw⟩
      refine ⟨pc.2, List.mem_cons_of_mem _ (List.of_mem_zip hpc).2, ?_⟩
      rw [← hw]
      dsimp only
      split <;> rfl

/-- C9: every emitted bucket contains at least one contributing record:
`purchase_days ≥ 1` for weekly purchase rows and `entries ≥ 1` for
weekly DOC-price rows, so the per-day and per-entry average divisions
have nonzero denominators and the date `min`/`max` are over non-empty
lists. -/
theorem buckets_nonempty :
    (∀ currentYear data w, w ∈ aggregate_weekly currentYear data →
      1 ≤ w.purchaseDays) ∧
    (∀ currentYear data w, w ∈ aggregate_weekly_prices currentYear data →
      1 ≤ w.entries) := by
  constructor
  · intro cy data w hw
    unfold aggregate_weekly at hw
    rcases addWowWeekly_purchaseDays hw with ⟨w', hw', heq⟩
    rcases List.mem_map.mp hw' with ⟨kv, hkv, hb⟩
    have hkv' : kv ∈ (data.foldl (weeklyStep cy) []) :=
      (List.perm_insertionSort _ _).mem_iff.mp hkv
    have hd : kv.2.dates ≠ [] := weekly_groups_dates_ne_nil kv hkv'
    have : w'.purchaseDays = (dedupKeep kv.2.dates).length := by
      rw [← hb]
      rfl
    rw [heq, this]
    have := dedupKeep_ne_nil hd
    cases hdl : dedupKeep kv.2.dates with
    | nil => exact absurd hdl this
    | cons a t => simp
  · intro cy data w hw
    unfold aggregate_weekly_prices at hw
    rcases addWowPrices_entries hw with ⟨w', hw', heq⟩
    rcases List.mem_map.mp hw' with ⟨kv, hkv, hb⟩
    have hkv' : kv ∈ (data.foldl (pricesStep cy) []) :=
      (List.perm_insertionSort _ _).mem_iff.mp hkv
    have hd : kv.2.prices ≠ [] := prices_groups_prices_ne_nil kv hkv'
    have : w'.entries = kv.2.prices.length := by
      rw [← hb]
      rfl
    rw [heq, this]
    cases hdl : kv.2.prices with
    | nil => exact absurd hdl hd
    | cons a t => simp

/-- Witness for C9 on concrete one-row inputs. -/
theorem buckets_nonempty_witness :
    (1 : ℕ) ≤ ({ year := 2025, week := 2, startDate := ⟨2025, 1, 6⟩,
                 endDate := ⟨2025, 1, 6⟩, purchaseDays := 1, birds := 100,
                 chickenWt := 50, gizzardWt := 10, totalWt := 60,
                 avgBirdsDay := 100, avgWtDay := 60, birdsWow := none,
                 wtWow := none } : WeekRow).purchaseDays ∧
    (1 : ℕ) ≤ ({ year := 2025, week := 2, startDate := ⟨2025, 1, 6⟩,
                 endDate := ⟨2025, 1, 6⟩, entries := 1, avgPrice := 100,
                 minPrice := 100, maxPrice := 100, spread := 0,
                 wowPct := none, wowAbs := none } : PriceRow).entries :=
  ⟨buckets_nonempty.1 2025
      [["2025-01-06".data, [], [], [], [], "100".data, [], [], "50.0".data, "10.0".data]]
      _ (by decide),
   buckets_nonempty.2 2025 [["2025-01-06".data, "100".data]] _ (by decide)⟩

-- ---------- helper lemmas: selling aggregation rows (C1, C2) ----------

lemma mem_aggregate_sell {records : List SellRecord} {row : SellRow}
    (h : row ∈ aggregate_by_date_location records) :
    ∃ kv ∈ records.foldl
        (fun g r => updateA (r.date, r.location) (addSell r) emptySellAcc g) [],
      row = buildSellRow kv := by
  unfold aggregate_by_date_location at h
  rcases List.mem_map.mp h with ⟨kv, hkv, hb⟩
  exact ⟨kv, (List.perm_insertionSort _ _).mem_iff.mp hkv, hb.symm⟩

lemma buildSellRow_diffPct (kv : (PyDate × Str) × SellAcc) (p : Product) :
    (buildSellRow kv).diffPct p =
      match (buildSellRow kv).pullusPrice p, (buildSellRow kv).compAvg p with
      | some pv, some cv =>
        if pv ≠ 0 ∧ cv ≠ 0 ∧ 0 < cv then
          some (pyRound ((pv - cv) / cv * 100) 1)
        else none
      | _, _ => none := rfl

/-- C1 (amended): in `aggregate_by_date_location` the percentage
differential is `None` whenever the competitor mean is absent or zero —
and likewise whenever the Pullus mean is absent or zero — and otherwise
equals `round((own - comp)/comp*100, 1)`, sign preserved.  In
`compute_summary` the differential field is a plain number: it is `0`
(not `None`) when the competitor mean is `0`, and otherwise the same
rounded formula over the summary means. -/
theorem diff_pct_rule :
    (∀ records row p, row ∈ aggregate_by_date_location records →
      ((row.compAvg p = none ∨ row.compAvg p = some 0 ∨
        row.pullusPrice p = none ∨ row.pullusPrice p = some 0) →
        row.diffPct p = none) ∧
      (∀ pv cv, row.pullusPrice p = some pv → row.compAvg p = some cv →
        pv ≠ 0 → cv ≠ 0 → 0 < cv →
        row.diffPct p = some (pyRound ((pv - cv) / cv * 100) 1))) ∧
    (∀ records,
      ((compute_summary records).avgComp = 0 →
        (compute_summary records).diffPct = 0) ∧
      ((compute_summary records).avgComp ≠ 0 →
        (compute_summary records).diffPct =
          pyRound (((compute_summary records).avgPullus -
              (compute_summary records).avgComp) /
              (compute_summary records).avgComp * 100) 1)) := by
  constructor
  · intro records row p hrow
    rcases mem_aggregate_sell hrow with ⟨kv, _, hb⟩
    subst hb
    constructor
    · intro hcase
      rcases hcase with h | h | h | h <;> rw [buildSellRow_diffPct, h] <;>
        first
          | rfl
          | ((cases hpp : (buildSellRow kv).pullusPrice p <;> simp); done)
          | ((cases hca : (buildSellRow kv).compAvg p <;> simp); done)
    · intro pv cv hpv hcv h1 h2 h3
      rw [buildSellRow_diffPct, hpv, hcv]
      dsimp only
      rw [if_pos ⟨h1, h2, h3⟩]
  · intro records
    unfold compute_summary
    dsimp only
    constructor
    · intro h
      rw [if_neg]
      simpa using h
    · intro h
      rw [if_pos h]

/-- Counterexample to C1 as stated: with one dressed-birds record
carrying only a Pullus price, the competitor mean is absent (held as
`0`), yet `compute_summary`'s `diff_pct` is the number `0` — the field
is unconditionally numeric, never `None`. -/
theorem diff_pct_claim_counterexample :
    (compute_summary [⟨⟨2025, 1, 6⟩, [], "A".data, "Dressed Birds".data,
        none, some (mkRat 4000 1), []⟩]).avgComp = 0 ∧
    (compute_summary [⟨⟨2025, 1, 6⟩, [], "A".data, "Dressed Birds".data,
        none, some (mkRat 4000 1), []⟩]).diffPct = 0 ∧
    (compute_summary [⟨⟨2025, 1, 6⟩, [], "A".data, "Dressed Birds".data,
        none, some (mkRat 4000 1), []⟩]).avgPullus = mkRat 4000 1 := by
  decide

/-- Witness for C1's amended rule: Pullus 4000 vs competitor 3400 gives
`+17.6%` in the selling aggregation, and the same spec-scenario figure
in the buying summary. -/
theorem diff_pct_rule_witness :
    ((aggregate_by_date_location
        [⟨⟨2025, 1, 6⟩, "Abuja".data, "Pullus".data,
          fun p => match p with
            | .wholeChicken => some (mkRat 4000 1) | .gizzard => none⟩,
         ⟨⟨2025, 1, 6⟩, "Abuja".data, "BrandX".data,
          fun p => match p with
            | .wholeChicken => some (mkRat 3400 1) | .gizzard => none⟩]).get
      ⟨0, by decide⟩).diffPct .wholeChicken =
      some (pyRound ((mkRat 4000 1 - mkRat 3400 1) / mkRat 3400 1 * 100) 1) ∧
    (compute_summary [⟨⟨2025, 1, 6⟩, [], "A".data, "Dressed Birds".data,
        some (mkRat 3400 1), some (mkRat 4000 1), []⟩]).diffPct =
      pyRound ((mkRat 4000 1 - mkRat 3400 1) / mkRat 3400 1 * 100) 1 := by
  constructor
  · exact (diff_pct_rule.1 _ _ .wholeChicken (List.get_mem _ _ _)).2
      (mkRat 4000 1) (mkRat 3400 1) (by decide) (by decide)
      (by decide) (by decide) (by decide)
  · have h := (diff_pct_rule.2 [⟨⟨2025, 1, 6⟩, [], "A".data,
      "Dressed Birds".data, some (mkRat 3400 1), some (mkRat 4000 1), []⟩]).2
      (by decide)
    rw [h]
    have h1 : (compute_summary [⟨⟨2025, 1, 6⟩, [], "A".data,
        "Dressed Birds".data, some (mkRat 3400 1), some (mkRat 4000 1), []⟩]).avgPullus
          = mkRat 4000 1 := by decide
    have h2 : (compute_summary [⟨⟨2025, 1, 6⟩, [], "A".data,
        "Dressed Birds".data, some (mkRat 3400 1), some (mkRat 4000 1), []⟩]).avgComp
          = mkRat 3400 1 := by decide
    rw [h1, h2]

-- ---------- helper lemmas: grouping = per-key filtering (C2) ----------

lemma lookupA_updateA_self {κ α : Type} [DecidableEq κ] (k : κ) (f : α → α)
    (d : α) : ∀ l : List (κ × α),
      lookupA k (updateA k f d l) = some (f ((lookupA k l).getD d)) := by
  intro l
  induction l with
  | nil => simp [updateA, lookupA]
  | cons hd tl ih =>
    unfold updateA
    by_cases he : hd.1 = k
    · rw [if_pos he]
      unfold lookupA
      rw [if_pos he, if_pos he]
      rfl
    · rw [if_neg he]
      unfold lookupA
      rw [if_neg he, if_neg he]
      exact ih

lemma lookupA_updateA_other {κ α : Type} [DecidableEq κ] {k k0 : κ}
    (hne : k ≠ k0) (f : α → α) (d : α) : ∀ l : List (κ × α),
      lookupA k (updateA k0 f d l) = lookupA k l := by
  intro l
  induction l with
  | nil =>
    simp only [updateA, lookupA]
    rw [if_neg (fun h => hne h.symm)]
  | cons hd tl ih =>
    unfold updateA
    by_cases he : hd.1 = k0
    · rw [if_pos he]
      unfold lookupA
      rw [if_neg (fun h => hne ((he.symm.trans h).symm)),
        if_neg (fun h => hne ((he.symm.trans h).symm))]
    · rw [if_neg he]
      unfold lookupA
      by_cases hk : hd.1 = k
      · rw [if_pos hk, if_pos hk]
      · rw [if_neg hk, if_neg hk]
        exact ih

lemma lookupA_eq_none {κ α : Type} [DecidableEq κ] (k : κ) :
    ∀ l : List (κ × α), lookupA k l = none ↔ k ∉ l.map Prod.fst := by
  intro l
  induction l with
  | nil => simp [lookupA]
  | cons hd tl ih =>
    unfold lookupA
    by_cases he : hd.1 = k
    · simp [he]
    · simp only [if_neg he, ih, List.map_cons, List.mem_cons]
      constructor
      · intro h hmem
        rcases hmem with h' | h'
        · exact he h'.symm
        · exact h h'
      · intro h hmem
        exact h (Or.inr hmem)

lemma updateA_keys_nodup {κ α : Type} [DecidableEq κ] (k : κ) (f : α → α)
    (d : α) : ∀ l : List (κ × α), ((l.map Prod.fst).Nodup) →
      ((updateA k f d l).map Prod.fst).Nodup := by
  intro l
  induction l with
  | nil => simp [updateA]
  | cons hd tl ih =>
    intro hnd
    unfold updateA
    rw [List.map_cons, List.nodup_cons] at hnd
    rcases hnd with ⟨hni, hnd'⟩
    by_cases he : hd.1 = k
    · rw [if_pos he]
      simp only [List.map_cons, List.nodup_cons]
      exact ⟨hni, hnd'⟩
    · rw [if_neg he]
      simp only [List.map_cons, List.nodup_cons]
      refine ⟨?_, ih hnd'⟩
      intro hmem
      -- hd.1 appears among the updated tail's keys: it was either an
      -- old key of tl (contradicting nodup) or the appended key k
      -- (contradicting hd.1 ≠ k)
      have : ∀ tl : List (κ × α), hd.1 ∉ tl.map Prod.fst → hd.1 ≠ k →
          hd.1 ∉ (updateA k f d tl).map Prod.fst := by
        intro tl
        induction tl with
        | nil => intro _ hne h; simp only [updateA, List.map_cons,
            List.map_nil, List.mem_singleton] at h; exact hne h
        | cons x xs ihx =>
          intro hmem hne h
          unfold updateA at h
          by_cases hx : x.1 = k
          · rw [if_pos hx] at h
            simp only [List.map_cons, List.mem_cons] at h hmem
            rcases h with h | h
            · exact hmem (Or.inl h)
            · exact hmem (Or.inr h)
          · rw [if_neg hx] at h
            simp only [List.map_cons, List.mem_cons] at h hmem
            rcases h with h | h
            · exact hmem (Or.inl h)
            · exact ihx (fun hm => hmem (Or.inr hm)) hne h
      exact this tl hni he hmem

lemma mem_lookupA {κ α : Type} [DecidableEq κ] {l : List (κ × α)}
    {kv : κ × α} (hnd : (l.map Prod.fst).Nodup) (hm : kv ∈ l) :
    lookupA kv.1 l = some kv.2 := by
  induction l with
  | nil => cases hm
  | cons hd tl ih =>
    rw [List.map_cons, List.nodup_cons] at hnd
    rcases hnd with ⟨hni, hnd'⟩
    rcases List.mem_cons.mp hm with h | h
    · subst h
      unfold lookupA
      rw [if_pos rfl]
    · unfold lookupA
      rw [if_neg]
      · exact ih hnd' h
      · intro he
        exact hni (he ▸ List.mem_map_of_mem Prod.fst h)

/-- The selling group fold, named for the lemmas. -/
lemma sell_fold_keys_nodup (records : List SellRecord) :
    (((records.foldl
        (fun g r => updateA (r.date, r.location) (addSell r) emptySellAcc g)
        []).map Prod.fst).Nodup) := by
  refine foldl_pres
    (fun g : List ((PyDate × Str) × SellAcc) => ((g.map Prod.fst).Nodup))
    _ ?_ records [] (by simp)
  intro g r hg
  exact updateA_keys_nodup _ _ _ g hg

lemma addSell_pullus (r : SellRecord) (acc : SellAcc) (p : Product) :
    (addSell r acc).pullus p =
      acc.pullus p ++
        (if lowerStr r.brand = "pullus".data then (r.price p).toList else []) := by
  cases p <;>
  · unfold addSell PRODUCTS
    dsimp only [List.foldl]
    by_cases hb : lowerStr r.brand = "pullus".data <;>
      cases hw : r.price .wholeChicken <;> cases hgz : r.price .gizzard <;>
        simp [hw, hgz, hb]

lemma addSell_comps (r : SellRecord) (acc : SellAcc) (p : Product) :
    (addSell r acc).comps p =
      acc.comps p ++
        (if lowerStr r.brand = "pullus".data then [] else (r.price p).toList) := by
  cases p <;>
  · unfold addSell PRODUCTS
    dsimp only [List.foldl]
    by_cases hb : lowerStr r.brand = "pullus".data <;>
      cases hw : r.price .wholeChicken <;> cases hgz : r.price .gizzard <;>
        simp [hw, hgz, hb]

lemma sell_fold_lookup (p : Product) (k : PyDate × Str) :
    ∀ records : List SellRecord,
      ((lookupA k (records.foldl
          (fun g r => updateA (r.date, r.location) (addSell r) emptySellAcc g)
          [])).map (fun a => a.pullus p)).getD []
        = pullusContrib records k.1 k.2 p ∧
      ((lookupA k (records.foldl
          (fun g r => updateA (r.date, r.location) (addSell r) emptySellAcc g)
          [])).map (fun a => a.comps p)).getD []
        = compContrib records k.1 k.2 p := by
  intro records
  induction records using List.reverseRecOn with
  | nil => simp [lookupA, pullusContrib, compContrib]
  | append_singleton rs r ih =>
    rw [List.foldl_append]
    simp only [List.foldl_cons, List.foldl_nil]
    have hcontrib : ∀ (f : SellRecord → Option ℚ) (pred : SellRecord → Bool),
        ((rs ++ [r]).filter pred).filterMap f =
          (rs.filter pred).filterMap f ++ (if pred r then (f r).toList else []) := by
      intro f pred
      rw [List.filter_append, List.filterMap_append]
      congr 1
      by_cases hp : pred r
      · rw [if_pos hp]
        have : List.filter pred [r] = [r] := by simp [List.filter, hp]
        rw [this]
        cases hfr : f r <;> simp [List.filterMap, hfr]
      · rw [if_neg hp]
        have : List.filter pred [r] = [] := by simp [List.filter, hp]
        rw [this]
        rfl
    by_cases hk : k = (r.date, r.location)
    · subst hk
      rw [lookupA_updateA_self]
      constructor
      · rw [Option.map_some', Option.getD_some, addSell_pullus]
        unfold pullusContrib
        rw [hcontrib]
        congr 1
        · have := ih.1
          cases hlk : lookupA (r.date, r.location) (rs.foldl
              (fun g r => updateA (r.date, r.location) (addSell r) emptySellAcc g) []) <;>
            rw [hlk] at this <;> exact this
        · simp
      · rw [Option.map_some', Option.getD_some, addSell_comps]
        unfold compContrib
        rw [hcontrib]
        congr 1
        · have := ih.2
          cases hlk : lookupA (r.date, r.location) (rs.foldl
              (fun g r => updateA (r.date, r.location) (addSell r) emptySellAcc g) []) <;>
            rw [hlk] at this <;> exact this
        · by_cases hb : lowerStr r.brand = "pullus".data <;> simp [hb]
    · rw [lookupA_updateA_other hk]
      have hpred : ∀ b : Bool,
          (decide (r.date = k.1) && decide (r.location = k.2) && b) = false := by
        intro b
        have : ¬(r.date = k.1 ∧ r.location = k.2) := by
          intro ⟨h1, h2⟩
          exact hk (by cases k with | mk a b => simp_all)
        by_cases h1 : r.date = k.1 <;> by_cases h2 : r.location = k.2 <;>
          simp [h1, h2] at this ⊢
      constructor
      · rw [ih.1]
        unfold pullusContrib
        rw [List.filter_append]
        simp [List.filter, hpred]
      · rw [ih.2]
        unfold compContrib
        rw [List.filter_append]
        simp [List.filter, hpred]

/-- C2 (amended): in `aggregate_by_date_location` each bucket mean is
computed from exactly the records of that `(date, location)` whose
price for the product is present — `None` when no record contributes,
otherwise the rounded arithmetic mean; in `compute_summary` the means
are likewise over the contributing (truthy) prices, but a rollup with
zero contributing records reports the number `0`, not `None`. -/
theorem bucket_mean_rule :
    (∀ records row p, row ∈ aggregate_by_date_location records →
      row.pullusPrice p =
        (if pullusContrib records row.date row.location p = [] then none
         else some (pyRound ((pullusContrib records row.date row.location p).sum /
           ((pullusContrib records row.date row.location p).length : ℚ)) 0)) ∧
      row.compAvg p =
        (if compContrib records row.date row.location p = [] then none
         else some (pyRound ((compContrib records row.date row.location p).sum /
           ((compContrib records row.date row.location p).length : ℚ)) 0))) ∧
    (∀ records : List BuyRecord,
      (compute_summary records).avgPullus =
        (if dressedPullusContrib records = [] then 0
         else pyRound ((dressedPullusContrib records).sum /
           ((dressedPullusContrib records).length : ℚ)) 0) ∧
      (compute_summary records).avgComp =
        (if dressedCompContrib records = [] then 0
         else pyRound ((dressedCompContrib records).sum /
           ((dressedCompContrib records).length : ℚ)) 0)) := by
  constructor
  · intro records row p hrow
    rcases mem_aggregate_sell hrow with ⟨kv, hkv, hb⟩
    have hlk := mem_lookupA (sell_fold_keys_nodup records) hkv
    have hfold := sell_fold_lookup p kv.1 records
    rw [hlk] at hfold
    simp only [Option.map_some', Option.getD_some] at hfold
    have hdate : row.date = kv.1.1 := by rw [hb]; rfl
    have hloc : row.location = kv.1.2 := by rw [hb]; rfl
    constructor
    · have hpp : row.pullusPrice p =
          (if kv.2.pullus p = [] then none
           else some (pyRound ((kv.2.pullus p).sum / ((kv.2.pullus p).length : ℚ)) 0)) := by
        rw [hb]; rfl
      rw [hpp, hdate, hloc, hfold.1]
    · have hca : row.compAvg p =
          (if kv.2.comps p = [] then none
           else some (pyRound ((kv.2.comps p).sum / ((kv.2.comps p).length : ℚ)) 0)) := by
        rw [hb]; rfl
      rw [hca, hdate, hloc, hfold.2]
  · intro records
    unfold compute_summary dressedPullusContrib dressedCompContrib
    dsimp only
    constructor
    · split <;> rfl
    · split <;> rfl

/-- Counterexample to C2 as stated: a dressed-birds record with no
present prices gives a rollup with zero contributing records, yet
`compute_summary` reports the means as the number `0`, never `None`. -/
theorem bucket_mean_claim_counterexample :
    (compute_summary [⟨⟨2025, 1, 6⟩, [], "A".data, "Dressed Birds".data,
        none, none, []⟩]).avgPullus = 0 ∧
    (compute_summary [⟨⟨2025, 1, 6⟩, [], "A".data, "Dressed Birds".data,
        none, none, []⟩]).avgComp = 0 ∧
    dressedPullusContrib [⟨⟨2025, 1, 6⟩, [], "A".data, "Dressed Birds".data,
        none, none, []⟩] = [] := by
  decide

/-- Witness for C2's amended rule on a concrete bucket (one Pullus and
one competitor record; the gizzard metric has no contributors and is
reported absent). -/
theorem bucket_mean_rule_witness :
    ((aggregate_by_date_location
        [⟨⟨2025, 1, 6⟩, "Abuja".data, "Pullus".data,
          fun p => match p with
            | .wholeChicken => some (mkRat 4000 1) | .gizzard => none⟩,
         ⟨⟨2025, 1, 6⟩, "Abuja".data, "BrandX".data,
          fun p => match p with
            | .wholeChicken => some (mkRat 3400 1) | .gizzard => none⟩]).get
      ⟨0, by decide⟩).pullusPrice .gizzard = none ∧
    ((aggregate_by_date_location
        [⟨⟨2025, 1, 6⟩, "Abuja".data, "Pullus".data,
          fun p => match p with
            | .wholeChicken => some (mkRat 4000 1) | .gizzard => none⟩,
         ⟨⟨2025, 1, 6⟩, "Abuja".data, "BrandX".data,
          fun p => match p with
            | .wholeChicken => some (mkRat 3400 1) | .gizzard => none⟩]).get
      ⟨0, by decide⟩).compAvg .wholeChicken =
        some (pyRound (mkRat 3400 1 / (1 : ℚ)) 0) := by
  constructor
  · rw [((bucket_mean_rule.1 _ _ .gizzard (List.get_mem _ _ _)).1)]
    rw [if_pos (by decide)]
  · rw [((bucket_mean_rule.1 _ _ .wholeChicken (List.get_mem _ _ _)).2)]
    rw [if_neg (by decide)]
    congr 1

-- ---------- helper lemmas: week-over-week deltas (C3) ----------

lemma addWowWeekly_length (l : List WeekRow) :
    (addWowWeekly l).length = l.length := by
  cases l with
  | nil => rfl
  | cons first rest => simp [addWowWeekly]

lemma addWowWeekly_get_zero (l : List WeekRow)
    (h0 : 0 < (addWowWeekly l).length) :
    (addWowWeekly l).get ⟨0, h0⟩ =
      l.get ⟨0, by rwa [addWowWeekly_length] at h0⟩ := by
  cases l with
  | nil => simp [addWowWeekly] at h0
  | cons first rest => rfl

lemma addWowWeekly_get_succ (l : List WeekRow) (i : ℕ)
    (h : i + 1 < (addWowWeekly l).length)
    (hb : i + 1 < l.length) (hp : i < l.length) :
    (addWowWeekly l).get ⟨i + 1, h⟩ =
      { l.get ⟨i + 1, hb⟩ with
        birdsWow :=
          if (l.get ⟨i, hp⟩).avgBirdsDay ≠ 0 then
            some (pyRound (((l.get ⟨i + 1, hb⟩).avgBirdsDay -
              (l.get ⟨i, hp⟩).avgBirdsDay) / (l.get ⟨i, hp⟩).avgBirdsDay * 100) 1)
          else none
        wtWow :=
          if (l.get ⟨i, hp⟩).avgWtDay ≠ 0 then
            some (pyRound (((l.get ⟨i + 1, hb⟩).avgWtDay -
              (l.get ⟨i, hp⟩).avgWtDay) / (l.get ⟨i, hp⟩).avgWtDay * 100) 1)
          else none } := by
  cases l with
  | nil => simp [addWowWeekly] at h
  | cons first rest =>
    simp only [addWowWeekly, List.get_eq_getElem, List.getElem_cons_succ,
      List.getElem_map, List.getElem_zip]

lemma addWowPrices_length (l : List PriceRow) :
    (addWowPrices l).length = l.length := by
  cases l with
  | nil => rfl
  | cons first rest => simp [addWowPrices]

lemma addWowPrices_get_zero (l : List PriceRow)
    (h0 : 0 < (addWowPrices l).length) :
    (addWowPrices l).get ⟨0, h0⟩ =
      l.get ⟨0, by rwa [addWowPrices_length] at h0⟩ := by
  cases l with
  | nil => simp [addWowPrices] at h0
  | cons first rest => rfl

lemma addWowPrices_get_succ (l : List PriceRow) (i : ℕ)
    (h : i + 1 < (addWowPrices l).length)
    (hb : i + 1 < l.length) (hp : i < l.length) :
    (addWowPrices l).get ⟨i + 1, h⟩ =
      (if (l.get ⟨i, hp⟩).avgPrice ≠ 0 then
        { l.get ⟨i + 1, hb⟩ with
          wowPct := some (pyRound (((l.get ⟨i + 1, hb⟩).avgPrice -
            (l.get ⟨i, hp⟩).avgPrice) / (l.get ⟨i, hp⟩).avgPrice * 100) 1)
          wowAbs := some (pyRound ((l.get ⟨i + 1, hb⟩).avgPrice -
            (l.get ⟨i, hp⟩).avgPrice) 0) }
      else
        { l.get ⟨i + 1, hb⟩ with wowPct := none, wowAbs := none }) := by
  cases l with
  | nil => simp [addWowPrices] at h
  | cons first rest =>
    simp only [addWowPrices, List.get_eq_getElem, List.getElem_cons_succ,
      List.getElem_map, List.getElem_zip]

lemma addWowWeekly_avg_pres (l : List WeekRow) (j : ℕ)
    (h : j < (addWowWeekly l).length) (h' : j < l.length) :
    ((addWowWeekly l).get ⟨j, h⟩).avgBirdsDay = (l.get ⟨j, h'⟩).avgBirdsDay ∧
    ((addWowWeekly l).get ⟨j, h⟩).avgWtDay = (l.get ⟨j, h'⟩).avgWtDay := by
  match j with
  | 0 => rw [addWowWeekly_get_zero]; exact ⟨rfl, rfl⟩
  | i + 1 =>
    rw [addWowWeekly_get_succ l i h h' (by omega)]
    exact ⟨rfl, rfl⟩

lemma addWowPrices_avg_pres (l : List PriceRow) (j : ℕ)
    (h : j < (addWowPrices l).length) (h' : j < l.length) :
    ((addWowPrices l).get ⟨j, h⟩).avgPrice = (l.get ⟨j, h'⟩).avgPrice := by
  match j with
  | 0 => rw [addWowPrices_get_zero]
  | i + 1 =>
    rw [addWowPrices_get_succ l i h h' (by omega)]
    split <;> rfl

lemma wow_first_none (l : List WeekRow)
    (hl : ∀ w ∈ l, w.birdsWow = none ∧ w.wtWow = none)
    (h : 0 < (addWowWeekly l).length) :
    ((addWowWeekly l).get ⟨0, h⟩).birdsWow = none ∧
    ((addWowWeekly l).get ⟨0, h⟩).wtWow = none := by
  rw [addWowWeekly_get_zero]
  exact hl _ (List.get_mem _ _ _)

lemma wow_succ_formula (l : List WeekRow) (i : ℕ)
    (h : i + 1 < (addWowWeekly l).length) :
    ((addWowWeekly l).get ⟨i + 1, h⟩).birdsWow =
      (if ((addWowWeekly l).get ⟨i, by omega⟩).avgBirdsDay ≠ 0 then
        some (pyRound ((((addWowWeekly l).get ⟨i + 1, h⟩).avgBirdsDay -
          ((addWowWeekly l).get ⟨i, by omega⟩).avgBirdsDay) /
          ((addWowWeekly l).get ⟨i, by omega⟩).avgBirdsDay * 100) 1)
      else none) ∧
    ((addWowWeekly l).get ⟨i + 1, h⟩).wtWow =
      (if ((addWowWeekly l).get ⟨i, by omega⟩).avgWtDay ≠ 0 then
        some (pyRound ((((addWowWeekly l).get ⟨i + 1, h⟩).avgWtDay -
          ((addWowWeekly l).get ⟨i, by omega⟩).avgWtDay) /
          ((addWowWeekly l).get ⟨i, by omega⟩).avgWtDay * 100) 1)
      else none) := by
  have hb : i + 1 < l.length := by rwa [addWowWeekly_length] at h
  have hp : i < l.length := by omega
  have hsucc := addWowWeekly_get_succ l i h hb hp
  have hpres := addWowWeekly_avg_pres l i (by omega) hp
  rw [hsucc, hpres.1, hpres.2]
  exact ⟨rfl, rfl⟩

lemma wowp_first_none (l : List PriceRow)
    (hl : ∀ w ∈ l, w.wowPct = none ∧ w.wowAbs = none)
    (h : 0 < (addWowPrices l).length) :
    ((addWowPrices l).get ⟨0, h⟩).wowPct = none ∧
    ((addWowPrices l).get ⟨0, h⟩).wowAbs = none := by
  rw [addWowPrices_get_zero]
  exact hl _ (List.get_mem _ _ _)

lemma wowp_succ_formula (l : List PriceRow) (i : ℕ)
    (h : i + 1 < (addWowPrices l).length) :
    (((addWowPrices l).get ⟨i, by omega⟩).avgPrice ≠ 0 →
      ((addWowPrices l).get ⟨i + 1, h⟩).wowPct =
        some (pyRound ((((addWowPrices l).get ⟨i + 1, h⟩).avgPrice -
          ((addWowPrices l).get ⟨i, by omega⟩).avgPrice) /
          ((addWowPrices l).get ⟨i, by omega⟩).avgPrice * 100) 1) ∧
      ((addWowPrices l).get ⟨i + 1, h⟩).wowAbs =
        some (pyRound (((addWowPrices l).get ⟨i + 1, h⟩).avgPrice -
          ((addWowPrices l).get ⟨i, by omega⟩).avgPrice) 0)) ∧
    (((addWowPrices l).get ⟨i, by omega⟩).avgPrice = 0 →
      ((addWowPrices l).get ⟨i + 1, h⟩).wowPct = none ∧
      ((addWowPrices l).get ⟨i + 1, h⟩).wowAbs = none) := by
  have hb : i + 1 < l.length := by rwa [addWowPrices_length] at h
  have hp : i < l.length := by omega
  have hsucc := addWowPrices_get_succ l i h hb hp
  have hpres := addWowPrices_avg_pres l i (by omega) hp
  constructor
  · intro hne
    rw [hpres] at hne
    rw [hsucc, if_pos hne, hpres]
    constructor <;> rfl
  · intro hze
    rw [hpres] at hze
    rw [hsucc, if_neg (by rw [hze]; simp)]
    constructor <;> rfl

/-- C3 (amended): in both weekly aggregators the first sorted bucket's
WoW fields are `None`, and each later bucket's WoW percentage is
`round((cur - prev)/prev*100, 1)` against the immediately preceding
bucket, `None` when the previous value is zero.  `aggregate_weekly`
emits only percentage deltas (no absolute-difference fields), and
`aggregate_weekly_prices` emits `wow_abs = round(cur - prev, 0)` only
when the previous average is nonzero — `None` (not the difference)
otherwise. -/
theorem wow_delta_rule :
    (∀ currentYear data (h : 0 < (aggregate_weekly currentYear data).length),
      ((aggregate_weekly currentYear data).get ⟨0, h⟩).birdsWow = none ∧
      ((aggregate_weekly currentYear data).get ⟨0, h⟩).wtWow = none) ∧
    (∀ currentYear data i
      (h : i + 1 < (aggregate_weekly currentYear data).length),
      ((aggregate_weekly currentYear data).get ⟨i + 1, h⟩).birdsWow =
        (if ((aggregate_weekly currentYear data).get ⟨i, by omega⟩).avgBirdsDay ≠ 0 then
          some (pyRound ((((aggregate_weekly currentYear data).get ⟨i + 1, h⟩).avgBirdsDay -
            ((aggregate_weekly currentYear data).get ⟨i, by omega⟩).avgBirdsDay) /
            ((aggregate_weekly currentYear data).get ⟨i, by omega⟩).avgBirdsDay * 100) 1)
        else none) ∧
      ((aggregate_weekly currentYear data).get ⟨i + 1, h⟩).wtWow =
        (if ((aggregate_weekly currentYear data).get ⟨i, by omega⟩).avgWtDay ≠ 0 then
          some (pyRound ((((aggregate_weekly currentYear data).get ⟨i + 1, h⟩).avgWtDay -
            ((aggregate_weekly currentYear data).get ⟨i, by omega⟩).avgWtDay) /
            ((aggregate_weekly currentYear data).get ⟨i, by omega⟩).avgWtDay * 100) 1)
        else none)) ∧
    (∀ currentYear data (h : 0 < (aggregate_weekly_prices currentYear data).length),
      ((aggregate_weekly_prices currentYear data).get ⟨0, h⟩).wowPct = none ∧
      ((aggregate_weekly_prices currentYear data).get ⟨0, h⟩).wowAbs = none) ∧
    (∀ currentYear data i
      (h : i + 1 < (aggregate_weekly_prices currentYear data).length),
      (((aggregate_weekly_prices currentYear data).get ⟨i, by omega⟩).avgPrice ≠ 0 →
        ((aggregate_weekly_prices currentYear data).get ⟨i + 1, h⟩).wowPct =
          some (pyRound ((((aggregate_weekly_prices currentYear data).get ⟨i + 1, h⟩).avgPrice -
            ((aggregate_weekly_prices currentYear data).get ⟨i, by omega⟩).avgPrice) /
            ((aggregate_weekly_prices currentYear data).get ⟨i, by omega⟩).avgPrice * 100) 1) ∧
        ((aggregate_weekly_prices currentYear data).get ⟨i + 1, h⟩).wowAbs =
          some (pyRound (((aggregate_weekly_prices currentYear data).get ⟨i + 1, h⟩).avgPrice -
            ((aggregate_weekly_prices currentYear data).get ⟨i, by omega⟩).avgPrice) 0)) ∧
      (((aggregate_weekly_prices currentYear data).get ⟨i, by omega⟩).avgPrice = 0 →
        ((aggregate_weekly_prices currentYear data).get ⟨i + 1, h⟩).wowPct = none ∧
        ((aggregate_weekly_prices currentYear data).get ⟨i + 1, h⟩).wowAbs = none)) := by
  refine ⟨?_, ?_, ?_, ?_⟩
  · intro cy data h
    exact wow_first_none _
      (fun w hw => by
        rcases List.mem_map.mp hw with ⟨kv, _, hkv⟩
        rw [← hkv]
        exact ⟨rfl, rfl⟩) h
  · intro cy data i h
    exact wow_succ_formula _ i h
  · intro cy data h
    exact wowp_first_none _
      (fun w hw => by
        rcases List.mem_map.mp hw with ⟨kv, _, hkv⟩
        rw [← hkv]
        exact ⟨rfl, rfl⟩) h
  · intro cy data i h
    exact wowp_succ_formula _ i h

/-- Counterexample to C3 as stated: with a first week whose rounded
average price is `0` (a `0.2` supplier price) and a second week at
`100`, the claim's absolute delta would be `100 - 0 = 100`, but the
code sets `wow_abs` (and `wow_pct`) to `None`; `aggregate_weekly`
moreover has no absolute-difference field at all. -/
theorem wow_delta_claim_counterexample :
    (aggregate_weekly_prices 2025
        [["2025-01-06".data, "0.2".data], ["2025-01-13".data, "100".data]]).map
      (fun w => (w.avgPrice, w.wowPct, w.wowAbs)) =
    [(0, none, none), (mkRat 100 1, none, none)] := by
  decide

/-- Witness for C3's amended rule on two concrete weeks. -/
theorem wow_delta_rule_witness :
    ((aggregate_weekly 2025
        [["2025-01-06".data, [], [], [], [], "100".data, [], [], "10.0".data, "0".data],
         ["2025-01-13".data, [], [], [], [], "150".data, [], [], "10.0".data, "0".data]]).get
      ⟨1, by decide⟩).birdsWow = some (pyRound ((mkRat 150 1 - mkRat 100 1) /
        mkRat 100 1 * 100) 1) ∧
    ((aggregate_weekly_prices 2025
        [["2025-01-06".data, "200".data], ["2025-01-13".data, "300".data]]).get
      ⟨0, by decide⟩).wowPct = none := by
  constructor
  · have h := (wow_delta_rule.2.1 2025
      [["2025-01-06".data, [], [], [], [], "100".data, [], [], "10.0".data, "0".data],
       ["2025-01-13".data, [], [], [], [], "150".data, [], [], "10.0".data, "0".data]]
      0 (by decide)).1
    rw [h]
    rw [if_pos (by decide)]
    congr 1
  · exact (wow_delta_rule.2.2.1 2025
      [["2025-01-06".data, "200".data], ["2025-01-13".data, "300".data]]
      (by decide)).1

/-- C6: the spec's end-to-end weekly-purchase scenario.  Rows for
2025-01-06 (100 birds, 50.0 kg chicken, 10.0 kg gizzard) and 2025-01-08
(200 birds, 90.0 kg chicken, 15.0 kg gizzard) fall in ISO week 2 of
2025 and aggregate to a single bucket with `birds = 300`,
`chicken_wt = 140.0`, `gizzard_wt = 25.0`, `purchase_days = 2` (two
distinct calendar dates) and `avg_birds_day = 300 / 2 = 150.0`. -/
theorem end_to_end_weekly_scenario :
    aggregate_weekly 2025
      [["2025-01-06".data, [], [], [], [], "100".data, [], [],
        "50.0".data, "10.0".data],
       ["2025-01-08".data, [], [], [], [], "200".data, [], [],
        "90.0".data, "15.0".data]] =
    [{ year := 2025, week := 2, startDate := ⟨2025, 1, 6⟩,
       endDate := ⟨2025, 1, 8⟩, purchaseDays := 2, birds := 300,
       chickenWt := 140, gizzardWt := 25, totalWt := 165,
       avgBirdsDay := 150, avgWtDay := mkRat 165 2,
       birdsWow := none, wtWow := none }] := by
  decide

-- ---------- helper lemmas: strptime round trip (C5), char level ----------

lemma digitVal_digitChar {k : ℕ} (hk : k < 10) :
    digitVal (Nat.digitChar k) = some k := by
  interval_cases k <;> decide

lemma digitChar_not_ws {k : ℕ} (hk : k < 10) :
    (Nat.digitChar k).isWhitespace = false := by
  interval_cases k <;> decide

lemma digitChar_ne {k : ℕ} {c : Char} (hk : k < 10)
    (hc : digitVal c = none) : Nat.digitChar k ≠ c := by
  intro h
  rw [← h, digitVal_digitChar hk] at hc
  cases hc

lemma mkDate_of_valid {y m d : ℕ} (h : validDate y m d = true) :
    mkDate y m d = some ⟨y, m, d⟩ := by
  unfold mkDate
  rw [if_pos h]

lemma daysInMonth_le_31 (y m : ℕ) : daysInMonth y m ≤ 31 := by
  unfold daysInMonth
  split <;> first | omega | (split <;> omega)

lemma daysInMonth_ge_28 (y m : ℕ) (h1 : 1 ≤ m) (h2 : m ≤ 12) :
    28 ≤ daysInMonth y m := by
  interval_cases m <;> simp [daysInMonth] <;> split <;> omega

lemma validDate_bounds {y m d : ℕ} (h : validDate y m d = true) :
    1 ≤ y ∧ y ≤ 9999 ∧ 1 ≤ m ∧ m ≤ 12 ∧ 1 ≤ d ∧ d ≤ 31 := by
  unfold validDate at h
  simp only [Bool.and_eq_true, decide_eq_true_eq] at h
  have := daysInMonth_le_31 y m
  omega

-- ---------- token-level lemmas ----------

lemma pNum2_pad2 (maxv n : ℕ) (r : Str) (h1 : 1 ≤ n) (h2 : n ≤ maxv)
    (h3 : n ≤ 99) : pNum2 maxv (pad2 n ++ r) = some (n, r) := by
  have hd1 : digitVal (Nat.digitChar (n / 10)) = some (n / 10) :=
    digitVal_digitChar (by omega)
  have hd2 : digitVal (Nat.digitChar (n % 10)) = some (n % 10) :=
    digitVal_digitChar (by omega)
  have hv : n / 10 * 10 + n % 10 = n := by omega
  simp only [pNum2, pad2, List.cons_append, hd1, hd2, hv]
  simp [h1, h2]

lemma pNum2_pad2_over (maxv n : ℕ) (r : Str) (h2 : maxv < n) (h3 : n ≤ 99)
    (h4 : 1 ≤ n / 10) :
    pNum2 maxv (pad2 n ++ r) = some (n / 10, Nat.digitChar (n % 10) :: r) := by
  have hd1 : digitVal (Nat.digitChar (n / 10)) = some (n / 10) :=
    digitVal_digitChar (by omega)
  have hd2 : digitVal (Nat.digitChar (n % 10)) = some (n % 10) :=
    digitVal_digitChar (by omega)
  have hcond : ¬(1 ≤ n / 10 * 10 + n % 10 ∧ n / 10 * 10 + n % 10 ≤ maxv) := by omega
  simp [pNum2, pad2, hd1, hd2, hcond, h4]

lemma pNum2_pad4_head (maxv y : ℕ) (r : Str) (hy : 1000 ≤ y) (hy9 : y ≤ 9999) :
    ∃ v k t, pNum2 maxv (pad4 y ++ r) = some (v, Nat.digitChar k :: t) ∧ k < 10 := by
  have hd1 : digitVal (Nat.digitChar (y / 1000 % 10)) = some (y / 1000 % 10) :=
    digitVal_digitChar (by omega)
  have hd2 : digitVal (Nat.digitChar (y / 100 % 10)) = some (y / 100 % 10) :=
    digitVal_digitChar (by omega)
  by_cases hc : 1 ≤ y / 1000 % 10 * 10 + y / 100 % 10 ∧
      y / 1000 % 10 * 10 + y / 100 % 10 ≤ maxv
  · refine ⟨y / 1000 % 10 * 10 + y / 100 % 10, y / 10 % 10,
      Nat.digitChar (y % 10) :: r, ?_, by omega⟩
    simp [pNum2, pad4, hd1, hd2, hc]
  · refine ⟨y / 1000 % 10, y / 100 % 10,
      Nat.digitChar (y / 10 % 10) :: Nat.digitChar (y % 10) :: r, ?_, by omega⟩
    have h4 : 1 ≤ y / 1000 % 10 := by omega
    simp [pNum2, pad4, hd1, hd2, hc, h4]

lemma pYear4_pad4 (y : ℕ) (r : Str) (hy9 : y ≤ 9999) :
    pYear4 (pad4 y ++ r) = some (y, r) := by
  have hd1 : digitVal (Nat.digitChar (y / 1000 % 10)) = some (y / 1000 % 10) :=
    digitVal_digitChar (by omega)
  have hd2 : digitVal (Nat.digitChar (y / 100 % 10)) = some (y / 100 % 10) :=
    digitVal_digitChar (by omega)
  have hd3 : digitVal (Nat.digitChar (y / 10 % 10)) = some (y / 10 % 10) :=
    digitVal_digitChar (by omega)
  have hd4 : digitVal (Nat.digitChar (y % 10)) = some (y % 10) :=
    digitVal_digitChar (by omega)
  have hv : y / 1000 % 10 * 1000 + y / 100 % 10 * 100 + y / 10 % 10 * 10 + y % 10 = y := by
    omega
  simp [pYear4, pad4, hd1, hd2, hd3, hd4, hv]

lemma pYear4_pad4_nil (y : ℕ) (hy9 : y ≤ 9999) :
    pYear4 (pad4 y) = some (y, []) := by
  have := pYear4_pad4 y [] hy9
  simpa using this

lemma pYear4_pad2_stuck (n : ℕ) (c : Char) (r : Str) (hc : digitVal c = none) :
    pYear4 (pad2 n ++ c :: r) = none := by
  cases r <;> simp [pYear4, pad2, hc]

lemma pLit_ne {ch c : Char} (t : Str) (h : ¬c = ch) : pLit ch (c :: t) = none := by
  simp [pLit, h]

lemma pLit_eq (ch : Char) (t : Str) : pLit ch (ch :: t) = some t := by
  simp [pLit]

lemma pWs_not {c : Char} (t : Str) (h : c.isWhitespace = false) :
    pWs (c :: t) = none := by
  simp [pWs, h]

lemma pWs_space {c : Char} (t : Str) (h : c.isWhitespace = false) :
    pWs (' ' :: c :: t) = some (c :: t) := by
  simp [pWs, List.dropWhile, h]

-- ---------- separator-mismatch lemmas ----------

lemma pLit_dash_of_slash (t : Str) : pLit '-' ('/' :: t) = none :=
  pLit_ne t (by decide)

lemma pLit_dash_of_sp (t : Str) : pLit '-' (' ' :: t) = none :=
  pLit_ne t (by decide)

lemma pLit_slash_of_dash (t : Str) : pLit '/' ('-' :: t) = none :=
  pLit_ne t (by decide)

lemma pLit_slash_of_sp (t : Str) : pLit '/' (' ' :: t) = none :=
  pLit_ne t (by decide)

lemma pLit_dash_of_digit (k : ℕ) (t : Str) (hk : k < 10) :
    pLit '-' (Nat.digitChar k :: t) = none :=
  pLit_ne t (digitChar_ne hk (by decide))

lemma pLit_slash_of_digit (k : ℕ) (t : Str) (hk : k < 10) :
    pLit '/' (Nat.digitChar k :: t) = none :=
  pLit_ne t (digitChar_ne hk (by decide))

lemma pWs_of_dash (t : Str) : pWs ('-' :: t) = none := pWs_not t (by decide)

lemma pWs_of_slash (t : Str) : pWs ('/' :: t) = none := pWs_not t (by decide)

lemma pWs_of_digit (k : ℕ) (t : Str) (hk : k < 10) :
    pWs (Nat.digitChar k :: t) = none := pWs_not t (digitChar_not_ws hk)

-- ---------- non-digit heads refuse numeric fields ----------

lemma pNum2_nondigit {c : Char} (maxv : ℕ) (t : Str) (h : digitVal c = none) :
    pNum2 maxv (c :: t) = none := by
  simp [pNum2, h]

lemma pYear4_nondigit {c : Char} (t : Str) (h : digitVal c = none) :
    pYear4 (c :: t) = none := by
  match t with
  | [] => rfl
  | [_] => rfl
  | [_, _] => rfl
  | _ :: _ :: _ :: _ => simp [pYear4, h]

-- ---------- month-name token lemmas ----------

lemma pAbbrev_abbrev (m : ℕ) (r : Str) (h1 : 1 ≤ m) (h2 : m ≤ 12) :
    pAbbrev (monthAbbrev m ++ r) = some (m, r) := by
  interval_cases m <;>
    simp +decide [pAbbrev, pName, monthAbbrevTbl, monthAbbrev, stripPrefixCI]

lemma pFull_full (m : ℕ) (r : Str) (h1 : 1 ≤ m) (h2 : m ≤ 12) :
    pFull (monthFull m ++ r) = some (m, r) := by
  interval_cases m <;>
    simp +decide [pFull, pName, monthFullTbl, monthFull, stripPrefixCI]

lemma pAbbrev_full (m : ℕ) (r : Str) (h1 : 1 ≤ m) (h2 : m ≤ 12) :
    pAbbrev (monthFull m ++ r) = some (m, (monthFull m).drop 3 ++ r) := by
  interval_cases m <;>
    simp +decide [pAbbrev, pName, monthAbbrevTbl, monthFull, stripPrefixCI]

lemma pNum2_abbrev (maxv m : ℕ) (r : Str) (h1 : 1 ≤ m) (h2 : m ≤ 12) :
    pNum2 maxv (monthAbbrev m ++ r) = none := by
  interval_cases m <;> simp +decide [pNum2, monthAbbrev, digitVal]

lemma pNum2_full (maxv m : ℕ) (r : Str) (h1 : 1 ≤ m) (h2 : m ≤ 12) :
    pNum2 maxv (monthFull m ++ r) = none := by
  interval_cases m <;> simp +decide [pNum2, monthFull, digitVal]

lemma pYear4_abbrev (m : ℕ) (r : Str) (h1 : 1 ≤ m) (h2 : m ≤ 12) :
    pYear4 (monthAbbrev m ++ r) = none := by
  interval_cases m <;>
    · show pYear4 (_ :: _) = none
      exact pYear4_nondigit _ (by decide)

lemma pYear4_full (m : ℕ) (r : Str) (h1 : 1 ≤ m) (h2 : m ≤ 12) :
    pYear4 (monthFull m ++ r) = none := by
  interval_cases m <;>
    · show pYear4 (_ :: _) = none
      exact pYear4_nondigit _ (by decide)

lemma pWs_sp_abbrev (m : ℕ) (r : Str) (h1 : 1 ≤ m) (h2 : m ≤ 12) :
    pWs (' ' :: (monthAbbrev m ++ r)) = some (monthAbbrev m ++ r) := by
  interval_cases m <;> simp +decide [pWs, monthAbbrev, List.dropWhile]

lemma pWs_sp_full (m : ℕ) (r : Str) (h1 : 1 ≤ m) (h2 : m ≤ 12) :
    pWs (' ' :: (monthFull m ++ r)) = some (monthFull m ++ r) := by
  interval_cases m <;> simp +decide [pWs, monthFull, List.dropWhile]

lemma pWs_drop3_full (m : ℕ) (r : Str) (h1 : 1 ≤ m) (h2 : m ≤ 12)
    (h5 : m ≠ 5) : pWs ((monthFull m).drop 3 ++ r) = none := by
  interval_cases m <;>
    first | exact absurd rfl h5 | simp +decide [pWs, monthFull]

lemma pAbbrev_digitChar {k : ℕ} (t : Str) (hk : k < 10) :
    pAbbrev (Nat.digitChar k :: t) = none := by
  interval_cases k <;>
    simp +decide [pAbbrev, pName, monthAbbrevTbl, stripPrefixCI]

lemma pFull_digitChar {k : ℕ} (t : Str) (hk : k < 10) :
    pFull (Nat.digitChar k :: t) = none := by
  interval_cases k <;>
    simp +decide [pFull, pName, monthFullTbl, stripPrefixCI]

-- ---------- padded fields as first tokens ----------

lemma pDay_pad2 (d : ℕ) (r : Str) (h1 : 1 ≤ d) (h2 : d ≤ 31) :
    pDay (pad2 d ++ r) = some (d, r) :=
  pNum2_pad2 31 d r h1 h2 (by omega)

lemma pDay_pad2_nil (d : ℕ) (h1 : 1 ≤ d) (h2 : d ≤ 31) :
    pDay (pad2 d) = some (d, []) := by
  have h := pNum2_pad2 31 d [] h1 h2 (by omega)
  simpa using h

lemma pMonth_pad2_le (m : ℕ) (r : Str) (h1 : 1 ≤ m) (h2 : m ≤ 12) :
    pMonth (pad2 m ++ r) = some (m, r) :=
  pNum2_pad2 12 m r h1 h2 (by omega)

lemma pMonth_pad2_gt (d : ℕ) (r : Str) (h2 : 12 < d) (h3 : d ≤ 31) :
    pMonth (pad2 d ++ r) = some (d / 10, Nat.digitChar (d % 10) :: r) :=
  pNum2_pad2_over 12 d r h2 (by omega) (by omega)

lemma pWs_sp_pad2 (n : ℕ) (r : Str) (hn : n ≤ 99) :
    pWs (' ' :: (pad2 n ++ r)) = some (pad2 n ++ r) := by
  show pWs (' ' :: Nat.digitChar (n / 10) :: (Nat.digitChar (n % 10) :: r)) = _
  exact pWs_space _ (digitChar_not_ws (by omega))

lemma pWs_sp_pad4_nil (n : ℕ) : pWs (' ' :: pad4 n) = some (pad4 n) := by
  show pWs (' ' :: Nat.digitChar (n / 1000 % 10) :: _) = _
  exact pWs_space _ (digitChar_not_ws (by omega))

-- ---------- the day/month swap keeps the date valid ----------

lemma validDate_swap {y m d : ℕ} (h : validDate y m d = true) (hd : d ≤ 12) :
    validDate y d m = true := by
  have hb := validDate_bounds h
  have h28 := daysInMonth_ge_28 y d (by omega) hd
  unfold validDate
  simp only [Bool.and_eq_true, decide_eq_true_eq]
  omega

-- ---------- strftime output survives str.strip() ----------

lemma stripL_cons_of {c : Char} {t : Str} (h : c.isWhitespace = false) :
    stripL (c :: t) = c :: t := by
  simp [stripL, List.dropWhile_cons, h]

lemma strip_shape {a b : Char} (mid : Str)
    (ha : a.isWhitespace = false) (hb : b.isWhitespace = false) :
    strip (a :: (mid ++ [b])) = a :: (mid ++ [b]) := by
  unfold strip
  rw [stripL_cons_of ha]
  rw [show ((a :: (mid ++ [b])).reverse) = b :: (mid.reverse ++ [a]) by simp]
  rw [stripL_cons_of hb]
  simp

lemma monthAbbrev_shape (m : ℕ) (h1 : 1 ≤ m) (h2 : m ≤ 12) :
    ∃ c cs, monthAbbrev m = c :: cs ∧ c.isWhitespace = false := by
  interval_cases m <;> exact ⟨_, _, rfl, by decide⟩

lemma monthFull_shape (m : ℕ) (h1 : 1 ≤ m) (h2 : m ≤ 12) :
    ∃ c cs, monthFull m = c :: cs ∧ c.isWhitespace = false := by
  interval_cases m <;> exact ⟨_, _, rfl, by decide⟩

lemma strip_encode (p : DatePattern) (dt : PyDate)
    (hv : validDate dt.year dt.month dt.day = true) :
    strip (encode p dt) = encode p dt := by
  obtain ⟨hy1, hy2, hm1, hm2, hd1, hd2⟩ := validDate_bounds hv
  cases p
  case dDashBDashY =>
    rw [show encode .dDashBDashY dt =
        Nat.digitChar (dt.day / 10) ::
          ((Nat.digitChar (dt.day % 10) :: '-' ::
            (monthAbbrev dt.month ++ '-' :: [Nat.digitChar (dt.year / 1000 % 10),
              Nat.digitChar (dt.year / 100 % 10), Nat.digitChar (dt.year / 10 % 10)]))
           ++ [Nat.digitChar (dt.year % 10)]) by
      simp [encode, pad2, pad4]]
    exact strip_shape _ (digitChar_not_ws (by omega)) (digitChar_not_ws (by omega))
  case yDashMDashD =>
    rw [show encode .yDashMDashD dt =
        Nat.digitChar (dt.year / 1000 % 10) ::
          (([Nat.digitChar (dt.year / 100 % 10), Nat.digitChar (dt.year / 10 % 10),
             Nat.digitChar (dt.year % 10), '-', Nat.digitChar (dt.month / 10),
             Nat.digitChar (dt.month % 10), '-', Nat.digitChar (dt.day / 10)])
           ++ [Nat.digitChar (dt.day % 10)]) by
      simp [encode, pad2, pad4]]
    exact strip_shape _ (digitChar_not_ws (by omega)) (digitChar_not_ws (by omega))
  case mSlashDSlashY =>
    rw [show encode .mSlashDSlashY dt =
        Nat.digitChar (dt.month / 10) ::
          (([Nat.digitChar (dt.month % 10), '/', Nat.digitChar (dt.day / 10),
             Nat.digitChar (dt.day % 10), '/', Nat.digitChar (dt.year / 1000 % 10),
             Nat.digitChar (dt.year / 100 % 10), Nat.digitChar (dt.year / 10 % 10)])
           ++ [Nat.digitChar (dt.year % 10)]) by
      simp [encode, pad2, pad4]]
    exact strip_shape _ (digitChar_not_ws (by omega)) (digitChar_not_ws (by omega))
  case dSlashMSlashY =>
    rw [show encode .dSlashMSlashY dt =
        Nat.digitChar (dt.day / 10) ::
          (([Nat.digitChar (dt.day % 10), '/', Nat.digitChar (dt.month / 10),
             Nat.digitChar (dt.month % 10), '/', Nat.digitChar (dt.year / 1000 % 10),
             Nat.digitChar (dt.year / 100 % 10), Nat.digitChar (dt.year / 10 % 10)])
           ++ [Nat.digitChar (dt.year % 10)]) by
      simp [encode, pad2, pad4]]
    exact strip_shape _ (digitChar_not_ws (by omega)) (digitChar_not_ws (by omega))
  case dSpBSpY =>
    rw [show encode .dSpBSpY dt =
        Nat.digitChar (dt.day / 10) ::
          ((Nat.digitChar (dt.day % 10) :: ' ' ::
            (monthAbbrev dt.month ++ ' ' :: [Nat.digitChar (dt.year / 1000 % 10),
              Nat.digitChar (dt.year / 100 % 10), Nat.digitChar (dt.year / 10 % 10)]))
           ++ [Nat.digitChar (dt.year % 10)]) by
      simp [encode, pad2, pad4]]
    exact strip_shape _ (digitChar_not_ws (by omega)) (digitChar_not_ws (by omega))
  case bSpDCommaY =>
    obtain ⟨c, cs, hB, hc⟩ := monthAbbrev_shape dt.month hm1 hm2
    rw [show encode .bSpDCommaY dt =
        c :: ((cs ++ (' ' :: Nat.digitChar (dt.day / 10) ::
            Nat.digitChar (dt.day % 10) :: ',' :: ' ' ::
            [Nat.digitChar (dt.year / 1000 % 10), Nat.digitChar (dt.year / 100 % 10),
             Nat.digitChar (dt.year / 10 % 10)]))
          ++ [Nat.digitChar (dt.year % 10)]) by
      simp [encode, hB, pad2, pad4]]
    exact strip_shape _ hc (digitChar_not_ws (by omega))
  case ySlashMSlashD =>
    rw [show encode .ySlashMSlashD dt =
        Nat.digitChar (dt.year / 1000 % 10) ::
          (([Nat.digitChar (dt.year / 100 % 10), Nat.digitChar (dt.year / 10 % 10),
             Nat.digitChar (dt.year % 10), '/', Nat.digitChar (dt.month / 10),
             Nat.digitChar (dt.month % 10), '/', Nat.digitChar (dt.day / 10)])
           ++ [Nat.digitChar (dt.day % 10)]) by
      simp [encode, pad2, pad4]]
    exact strip_shape _ (digitChar_not_ws (by omega)) (digitChar_not_ws (by omega))
  case dDashMDashY =>
    rw [show encode .dDashMDashY dt =
        Nat.digitChar (dt.day / 10) ::
          (([Nat.digitChar (dt.day % 10), '-', Nat.digitChar (dt.month / 10),
             Nat.digitChar (dt.month % 10), '-', Nat.digitChar (dt.year / 1000 % 10),
             Nat.digitChar (dt.year / 100 % 10), Nat.digitChar (dt.year / 10 % 10)])
           ++ [Nat.digitChar (dt.year % 10)]) by
      simp [encode, pad2, pad4]]
    exact strip_shape _ (digitChar_not_ws (by omega)) (digitChar_not_ws (by omega))
  case dSpBetaSpY =>
    rw [show encode .dSpBetaSpY dt =
        Nat.digitChar (dt.day / 10) ::
          ((Nat.digitChar (dt.day % 10) :: ' ' ::
            (monthFull dt.month ++ ' ' :: [Nat.digitChar (dt.year / 1000 % 10),
              Nat.digitChar (dt.year / 100 % 10), Nat.digitChar (dt.year / 10 % 10)]))
           ++ [Nat.digitChar (dt.year % 10)]) by
      simp [encode, pad2, pad4]]
    exact strip_shape _ (digitChar_not_ws (by omega)) (digitChar_not_ws (by omega))
  case betaSpDCommaY =>
    obtain ⟨c, cs, hB, hc⟩ := monthFull_shape dt.month hm1 hm2
    rw [show encode .betaSpDCommaY dt =
        c :: ((cs ++ (' ' :: Nat.digitChar (dt.day / 10) ::
            Nat.digitChar (dt.day % 10) :: ',' :: ' ' ::
            [Nat.digitChar (dt.year / 1000 % 10), Nat.digitChar (dt.year / 100 % 10),
             Nat.digitChar (dt.year / 10 % 10)]))
          ++ [Nat.digitChar (dt.year % 10)]) by
      simp [encode, hB, pad2, pad4]]
    exact strip_shape _ hc (digitChar_not_ws (by omega))

-- ---------- round trips, pattern by pattern ----------

lemma roundtrip_dDashBDashY (dt : PyDate)
    (hv : validDate dt.year dt.month dt.day = true) :
    parse_date (.str (encode .dDashBDashY dt)) = some dt := by
  obtain ⟨hy1, hy2, hm1, hm2, hd1, hd2⟩ := validDate_bounds hv
  have h1 : fmt1 (encode .dDashBDashY dt) = some dt := by
    unfold fmt1 raw1
    rw [show pDay (encode DatePattern.dDashBDashY dt) =
        some (dt.day, '-' :: (monthAbbrev dt.month ++ '-' :: pad4 dt.year)) from
      pDay_pad2 dt.day _ hd1 hd2]
    simp only [Option.pure_def, Option.bind_eq_bind, Option.some_bind, pLit_eq,
      pAbbrev_abbrev dt.month ('-' :: pad4 dt.year) hm1 hm2,
      pYear4_pad4_nil dt.year hy2, finishDate, if_pos rfl, mkDate, hv, if_true]
  simp only [parse_date]
  rw [strip_encode .dDashBDashY dt hv, h1, Option.some_orElse]

lemma roundtrip_yDashMDashD (dt : PyDate)
    (hv : validDate dt.year dt.month dt.day = true) (hy : 1000 ≤ dt.year) :
    parse_date (.str (encode .yDashMDashD dt)) = some dt := by
  obtain ⟨hy1, hy2, hm1, hm2, hd1, hd2⟩ := validDate_bounds hv
  have h1 : fmt1 (encode .yDashMDashD dt) = none := by
    obtain ⟨v, k, t, heq, hk⟩ := pNum2_pad4_head 31 dt.year
      ('-' :: (pad2 dt.month ++ '-' :: pad2 dt.day)) hy hy2
    unfold fmt1 raw1
    rw [show pDay (encode DatePattern.yDashMDashD dt) =
        some (v, Nat.digitChar k :: t) from heq]
    simp only [Option.pure_def, Option.bind_eq_bind, Option.some_bind,
      pLit_dash_of_digit k t hk, Option.none_bind, finishDate]
  have h2 : fmt2 (encode .yDashMDashD dt) = some dt := by
    unfold fmt2 raw2
    rw [show pYear4 (encode DatePattern.yDashMDashD dt) =
        some (dt.year, '-' :: (pad2 dt.month ++ '-' :: pad2 dt.day)) from
      pYear4_pad4 dt.year _ hy2]
    simp only [Option.pure_def, Option.bind_eq_bind, Option.some_bind, pLit_eq,
      pMonth_pad2_le dt.month ('-' :: pad2 dt.day) hm1 hm2,
      pDay_pad2_nil dt.day hd1 hd2, finishDate, if_pos rfl, mkDate, hv, if_true]
  simp only [parse_date]
  rw [strip_encode .yDashMDashD dt hv, h1, Option.none_orElse, h2,
    Option.some_orElse]

lemma roundtrip_mSlashDSlashY (dt : PyDate)
    (hv : validDate dt.year dt.month dt.day = true) :
    parse_date (.str (encode .mSlashDSlashY dt)) = some dt := by
  obtain ⟨hy1, hy2, hm1, hm2, hd1, hd2⟩ := validDate_bounds hv
  have h1 : fmt1 (encode .mSlashDSlashY dt) = none := by
    unfold fmt1 raw1
    rw [show pDay (encode DatePattern.mSlashDSlashY dt) =
        some (dt.month, '/' :: (pad2 dt.day ++ '/' :: pad4 dt.year)) from
      pDay_pad2 dt.month _ hm1 (by omega)]
    simp only [Option.pure_def, Option.bind_eq_bind, Option.some_bind,
      pLit_dash_of_slash, Option.none_bind, finishDate]
  have h2 : fmt2 (encode .mSlashDSlashY dt) = none := by
    unfold fmt2 raw2
    rw [show pYear4 (encode DatePattern.mSlashDSlashY dt) = none from
      pYear4_pad2_stuck dt.month '/' _ (by decide)]
    simp only [Option.pure_def, Option.bind_eq_bind, Option.none_bind, finishDate]
  have h3 : fmt3 (encode .mSlashDSlashY dt) = some dt := by
    unfold fmt3 raw3
    rw [show pMonth (encode DatePattern.mSlashDSlashY dt) =
        some (dt.month, '/' :: (pad2 dt.day ++ '/' :: pad4 dt.year)) from
      pMonth_pad2_le dt.month _ hm1 hm2]
    simp only [Option.pure_def, Option.bind_eq_bind, Option.some_bind, pLit_eq,
      pDay_pad2 dt.day ('/' :: pad4 dt.year) hd1 hd2,
      pYear4_pad4_nil dt.year hy2, finishDate, if_pos rfl, mkDate, hv, if_true]
  simp only [parse_date]
  rw [strip_encode .mSlashDSlashY dt hv, h1, Option.none_orElse, h2,
    Option.none_orElse, h3, Option.some_orElse]

lemma roundtrip_dSlashMSlashY (dt : PyDate)
    (hv : validDate dt.year dt.month dt.day = true) :
    parse_date (.str (encode .dSlashMSlashY dt)) =
      some (roundTripResult .dSlashMSlashY dt) := by
  obtain ⟨hy1, hy2, hm1, hm2, hd1, hd2⟩ := validDate_bounds hv
  have h1 : fmt1 (encode .dSlashMSlashY dt) = none := by
    unfold fmt1 raw1
    rw [show pDay (encode DatePattern.dSlashMSlashY dt) =
        some (dt.day, '/' :: (pad2 dt.month ++ '/' :: pad4 dt.year)) from
      pDay_pad2 dt.day _ hd1 hd2]
    simp only [Option.pure_def, Option.bind_eq_bind, Option.some_bind,
      pLit_dash_of_slash, Option.none_bind, finishDate]
  have h2 : fmt2 (encode .dSlashMSlashY dt) = none := by
    unfold fmt2 raw2
    rw [show pYear4 (encode DatePattern.dSlashMSlashY dt) = none from
      pYear4_pad2_stuck dt.day '/' _ (by decide)]
    simp only [Option.pure_def, Option.bind_eq_bind, Option.none_bind, finishDate]
  by_cases hd12 : dt.day ≤ 12
  · have h3 : fmt3 (encode .dSlashMSlashY dt) =
        some ⟨dt.year, dt.day, dt.month⟩ := by
      have hsw := validDate_swap hv hd12
      unfold fmt3 raw3
      rw [show pMonth (encode DatePattern.dSlashMSlashY dt) =
          some (dt.day, '/' :: (pad2 dt.month ++ '/' :: pad4 dt.year)) from
        pMonth_pad2_le dt.day _ hd1 hd12]
      simp only [Option.pure_def, Option.bind_eq_bind, Option.some_bind, pLit_eq,
        pDay_pad2 dt.month ('/' :: pad4 dt.year) hm1 (by omega),
        pYear4_pad4_nil dt.year hy2, finishDate, if_pos rfl, mkDate, hsw, if_true]
    simp only [parse_date]
    rw [strip_encode .dSlashMSlashY dt hv, h1, Option.none_orElse, h2,
      Option.none_orElse, h3, Option.some_orElse]
    simp only [roundTripResult, if_pos hd12]
  · have h3 : fmt3 (encode .dSlashMSlashY dt) = none := by
      unfold fmt3 raw3
      rw [show pMonth (encode DatePattern.dSlashMSlashY dt) =
          some (dt.day / 10, Nat.digitChar (dt.day % 10) ::
            '/' :: (pad2 dt.month ++ '/' :: pad4 dt.year)) from
        pMonth_pad2_gt dt.day _ (by omega) hd2]
      simp only [Option.pure_def, Option.bind_eq_bind, Option.some_bind,
        pLit_slash_of_digit (dt.day % 10) _ (by omega), Option.none_bind,
        finishDate]
    have h4 : fmt4 (encode .dSlashMSlashY dt) = some dt := by
      unfold fmt4 raw4
      rw [show pDay (encode DatePattern.dSlashMSlashY dt) =
          some (dt.day, '/' :: (pad2 dt.month ++ '/' :: pad4 dt.year)) from
        pDay_pad2 dt.day _ hd1 hd2]
      simp only [Option.pure_def, Option.bind_eq_bind, Option.some_bind, pLit_eq,
        pMonth_pad2_le dt.month ('/' :: pad4 dt.year) hm1 hm2,
        pYear4_pad4_nil dt.year hy2, finishDate, if_pos rfl, mkDate, hv, if_true]
    simp only [parse_date]
    rw [strip_encode .dSlashMSlashY dt hv, h1, Option.none_orElse, h2,
      Option.none_orElse, h3, Option.none_orElse, h4, Option.some_orElse]
    simp only [roundTripResult, if_neg hd12]

lemma roundtrip_dSpBSpY (dt : PyDate)
    (hv : validDate dt.year dt.month dt.day = true) :
    parse_date (.str (encode .dSpBSpY dt)) = some dt := by
  obtain ⟨hy1, hy2, hm1, hm2, hd1, hd2⟩ := validDate_bounds hv
  have h1 : fmt1 (encode .dSpBSpY dt) = none := by
    unfold fmt1 raw1
    rw [show pDay (encode DatePattern.dSpBSpY dt) =
        some (dt.day, ' ' :: (monthAbbrev dt.month ++ ' ' :: pad4 dt.year)) from
      pDay_pad2 dt.day _ hd1 hd2]
    simp only [Option.pure_def, Option.bind_eq_bind, Option.some_bind,
      pLit_dash_of_sp, Option.none_bind, finishDate]
  have h2 : fmt2 (encode .dSpBSpY dt) = none := by
    unfold fmt2 raw2
    rw [show pYear4 (encode DatePattern.dSpBSpY dt) = none from
      pYear4_pad2_stuck dt.day ' ' _ (by decide)]
    simp only [Option.pure_def, Option.bind_eq_bind, Option.none_bind, finishDate]
  have h3 : fmt3 (encode .dSpBSpY dt) = none := by
    unfold fmt3 raw3
    by_cases hd12 : dt.day ≤ 12
    · rw [show pMonth (encode DatePattern.dSpBSpY dt) =
          some (dt.day, ' ' :: (monthAbbrev dt.month ++ ' ' :: pad4 dt.year)) from
        pMonth_pad2_le dt.day _ hd1 hd12]
      simp only [Option.pure_def, Option.bind_eq_bind, Option.some_bind,
        pLit_slash_of_sp, Option.none_bind, finishDate]
    · rw [show pMonth (encode DatePattern.dSpBSpY dt) =
          some (dt.day / 10, Nat.digitChar (dt.day % 10) ::
            ' ' :: (monthAbbrev dt.month ++ ' ' :: pad4 dt.year)) from
        pMonth_pad2_gt dt.day _ (by omega) hd2]
      simp only [Option.pure_def, Option.bind_eq_bind, Option.some_bind,
        pLit_slash_of_digit (dt.day % 10) _ (by omega), Option.none_bind,
        finishDate]
  have h4 : fmt4 (encode .dSpBSpY dt) = none := by
    unfold fmt4 raw4
    rw [show pDay (encode DatePattern.dSpBSpY dt) =
        some (dt.day, ' ' :: (monthAbbrev dt.month ++ ' ' :: pad4 dt.year)) from
      pDay_pad2 dt.day _ hd1 hd2]
    simp only [Option.pure_def, Option.bind_eq_bind, Option.some_bind,
      pLit_slash_of_sp, Option.none_bind, finishDate]
  have h5 : fmt5 (encode .dSpBSpY dt) = some dt := by
    unfold fmt5 raw5
    rw [show pDay (encode DatePattern.dSpBSpY dt) =
        some (dt.day, ' ' :: (monthAbbrev dt.month ++ ' ' :: pad4 dt.year)) from
      pDay_pad2 dt.day _ hd1 hd2]
    simp only [Option.pure_def, Option.bind_eq_bind, Option.some_bind,
      pWs_sp_abbrev dt.month (' ' :: pad4 dt.year) hm1 hm2,
      pAbbrev_abbrev dt.month (' ' :: pad4 dt.year) hm1 hm2,
      pWs_sp_pad4_nil dt.year, pYear4_pad4_nil dt.year hy2, finishDate,
      if_pos rfl, mkDate, hv, if_true]
  simp only [parse_date]
  rw [strip_encode .dSpBSpY dt hv, h1, Option.none_orElse, h2,
    Option.none_orElse, h3, Option.none_orElse, h4, Option.none_orElse, h5,
    Option.some_orElse]

lemma roundtrip_bSpDCommaY (dt : PyDate)
    (hv : validDate dt.year dt.month dt.day = true) :
    parse_date (.str (encode .bSpDCommaY dt)) = some dt := by
  obtain ⟨hy1, hy2, hm1, hm2, hd1, hd2⟩ := validDate_bounds hv
  have h1 : fmt1 (encode .bSpDCommaY dt) = none := by
    unfold fmt1 raw1
    rw [show pDay (encode DatePattern.bSpDCommaY dt) = none from
      pNum2_abbrev 31 dt.month _ hm1 hm2]
    simp only [Option.pure_def, Option.bind_eq_bind, Option.none_bind, finishDate]
  have h2 : fmt2 (encode .bSpDCommaY dt) = none := by
    unfold fmt2 raw2
    rw [show pYear4 (encode DatePattern.bSpDCommaY dt) = none from
      pYear4_abbrev dt.month _ hm1 hm2]
    simp only [Option.pure_def, Option.bind_eq_bind, Option.none_bind, finishDate]
  have h3 : fmt3 (encode .bSpDCommaY dt) = none := by
    unfold fmt3 raw3
    rw [show pMonth (encode DatePattern.bSpDCommaY dt) = none from
      pNum2_abbrev 12 dt.month _ hm1 hm2]
    simp only [Option.pure_def, Option.bind_eq_bind, Option.none_bind, finishDate]
  have h4 : fmt4 (encode .bSpDCommaY dt) = none := by
    unfold fmt4 raw4
    rw [show pDay (encode DatePattern.bSpDCommaY dt) = none from
      pNum2_abbrev 31 dt.month _ hm1 hm2]
    simp only [Option.pure_def, Option.bind_eq_bind, Option.none_bind, finishDate]
  have h5 : fmt5 (encode .bSpDCommaY dt) = none := by
    unfold fmt5 raw5
    rw [show pDay (encode DatePattern.bSpDCommaY dt) = none from
      pNum2_abbrev 31 dt.month _ hm1 hm2]
    simp only [Option.pure_def, Option.bind_eq_bind, Option.none_bind, finishDate]
  have h6 : fmt6 (encode .bSpDCommaY dt) = some dt := by
    unfold fmt6 raw6
    rw [show pAbbrev (encode DatePattern.bSpDCommaY dt) =
        some (dt.month, ' ' :: (pad2 dt.day ++ ',' :: ' ' :: pad4 dt.year)) from
      pAbbrev_abbrev dt.month _ hm1 hm2]
    simp only [Option.pure_def, Option.bind_eq_bind, Option.some_bind,
      pWs_sp_pad2 dt.day (',' :: ' ' :: pad4 dt.year) (by omega),
      pDay_pad2 dt.day (',' :: ' ' :: pad4 dt.year) hd1 hd2, pLit_eq,
      pWs_sp_pad4_nil dt.year, pYear4_pad4_nil dt.year hy2, finishDate,
      if_pos rfl, mkDate, hv, if_true]
  simp only [parse_date]
  rw [strip_encode .bSpDCommaY dt hv, h1, Option.none_orElse, h2,
    Option.none_orElse, h3, Option.none_orElse, h4, Option.none_orElse, h5,
    Option.none_orElse, h6, Option.some_orElse]

lemma roundtrip_ySlashMSlashD (dt : PyDate)
    (hv : validDate dt.year dt.month dt.day = true) (hy : 1000 ≤ dt.year) :
    parse_date (.str (encode .ySlashMSlashD dt)) = some dt := by
  obtain ⟨hy1, hy2, hm1, hm2, hd1, hd2⟩ := validDate_bounds hv
  have h1 : fmt1 (encode .ySlashMSlashD dt) = none := by
    obtain ⟨v, k, t, heq, hk⟩ := pNum2_pad4_head 31 dt.year
      ('/' :: (pad2 dt.month ++ '/' :: pad2 dt.day)) hy hy2
    unfold fmt1 raw1
    rw [show pDay (encode DatePattern.ySlashMSlashD dt) =
        some (v, Nat.digitChar k :: t) from heq]
    simp only [Option.pure_def, Option.bind_eq_bind, Option.some_bind,
      pLit_dash_of_digit k t hk, Option.none_bind, finishDate]
  have h2 : fmt2 (encode .ySlashMSlashD dt) = none := by
    unfold fmt2 raw2
    rw [show pYear4 (encode DatePattern.ySlashMSlashD dt) =
        some (dt.year, '/' :: (pad2 dt.month ++ '/' :: pad2 dt.day)) from
      pYear4_pad4 dt.year _ hy2]
    simp only [Option.pure_def, Option.bind_eq_bind, Option.some_bind,
      pLit_dash_of_slash, Option.none_bind, finishDate]
  have h3 : fmt3 (encode .ySlashMSlashD dt) = none := by
    obtain ⟨v, k, t, heq, hk⟩ := pNum2_pad4_head 12 dt.year
      ('/' :: (pad2 dt.month ++ '/' :: pad2 dt.day)) hy hy2
    unfold fmt3 raw3
    rw [show pMonth (encode DatePattern.ySlashMSlashD dt) =
        some (v, Nat.digitChar k :: t) from heq]
    simp only [Option.pure_def, Option.bind_eq_bind, Option.some_bind,
      pLit_slash_of_digit k t hk, Option.none_bind, finishDate]
  have h4 : fmt4 (encode .ySlashMSlashD dt) = none := by
    obtain ⟨v, k, t, heq, hk⟩ := pNum2_pad4_head 31 dt.year
      ('/' :: (pad2 dt.month ++ '/' :: pad2 dt.day)) hy hy2
    unfold fmt4 raw4
    rw [show pDay (encode DatePattern.ySlashMSlashD dt) =
        some (v, Nat.digitChar k :: t) from heq]
    simp only [Option.pure_def, Option.bind_eq_bind, Option.some_bind,
      pLit_slash_of_digit k t hk, Option.none_bind, finishDate]
  have h5 : fmt5 (encode .ySlashMSlashD dt) = none := by
    obtain ⟨v, k, t, heq, hk⟩ := pNum2_pad4_head 31 dt.year
      ('/' :: (pad2 dt.month ++ '/' :: pad2 dt.day)) hy hy2
    unfold fmt5 raw5
    rw [show pDay (encode DatePattern.ySlashMSlashD dt) =
        some (v, Nat.digitChar k :: t) from heq]
    simp only [Option.pure_def, Option.bind_eq_bind, Option.some_bind,
      pWs_of_digit k t hk, Option.none_bind, finishDate]
  have h6 : fmt6 (encode .ySlashMSlashD dt) = none := by
    have habb : pAbbrev (encode DatePattern.ySlashMSlashD dt) = none := by
      show pAbbrev (Nat.digitChar (dt.year / 1000 % 10) :: _) = none
      exact pAbbrev_digitChar _ (by omega)
    unfold fmt6 raw6
    rw [habb]
    simp only [Option.pure_def, Option.bind_eq_bind, Option.none_bind, finishDate]
  have h7 : fmt7 (encode .ySlashMSlashD dt) = some dt := by
    unfold fmt7 raw7
    rw [show pYear4 (encode DatePattern.ySlashMSlashD dt) =
        some (dt.year, '/' :: (pad2 dt.month ++ '/' :: pad2 dt.day)) from
      pYear4_pad4 dt.year _ hy2]
    simp only [Option.pure_def, Option.bind_eq_bind, Option.some_bind, pLit_eq,
      pMonth_pad2_le dt.month ('/' :: pad2 dt.day) hm1 hm2,
      pDay_pad2_nil dt.day hd1 hd2, finishDate, if_pos rfl, mkDate, hv, if_true]
  simp only [parse_date]
  rw [strip_encode .ySlashMSlashD dt hv, h1, Option.none_orElse, h2,
    Option.none_orElse, h3, Option.none_orElse, h4, Option.none_orElse, h5,
    Option.none_orElse, h6, Option.none_orElse, h7, Option.some_orElse]

lemma roundtrip_dDashMDashY (dt : PyDate)
    (hv : validDate dt.year dt.month dt.day = true) :
    parse_date (.str (encode .dDashMDashY dt)) = some dt := by
  obtain ⟨hy1, hy2, hm1, hm2, hd1, hd2⟩ := validDate_bounds hv
  have habbm : pAbbrev (pad2 dt.month ++ '-' :: pad4 dt.year) = none := by
    show pAbbrev (Nat.digitChar (dt.month / 10) :: _) = none
    exact pAbbrev_digitChar _ (by omega)
  have h1 : fmt1 (encode .dDashMDashY dt) = none := by
    unfold fmt1 raw1
    rw [show pDay (encode DatePattern.dDashMDashY dt) =
        some (dt.day, '-' :: (pad2 dt.month ++ '-' :: pad4 dt.year)) from
      pDay_pad2 dt.day _ hd1 hd2]
    simp only [Option.pure_def, Option.bind_eq_bind, Option.some_bind, pLit_eq,
      habbm, Option.none_bind, finishDate]
  have h2 : fmt2 (encode .dDashMDashY dt) = none := by
    unfold fmt2 raw2
    rw [show pYear4 (encode DatePattern.dDashMDashY dt) = none from
      pYear4_pad2_stuck dt.day '-' _ (by decide)]
    simp only [Option.pure_def, Option.bind_eq_bind, Option.none_bind, finishDate]
  have h3 : fmt3 (encode .dDashMDashY dt) = none := by
    unfold fmt3 raw3
    by_cases hd12 : dt.day ≤ 12
    · rw [show pMonth (encode DatePattern.dDashMDashY dt) =
          some (dt.day, '-' :: (pad2 dt.month ++ '-' :: pad4 dt.year)) from
        pMonth_pad2_le dt.day _ hd1 hd12]
      simp only [Option.pure_def, Option.bind_eq_bind, Option.some_bind,
        pLit_slash_of_dash, Option.none_bind, finishDate]
    · rw [show pMonth (encode DatePattern.dDashMDashY dt) =
          some (dt.day / 10, Nat.digitChar (dt.day % 10) ::
            '-' :: (pad2 dt.month ++ '-' :: pad4 dt.year)) from
        pMonth_pad2_gt dt.day _ (by omega) hd2]
      simp only [Option.pure_def, Option.bind_eq_bind, Option.some_bind,
        pLit_slash_of_digit (dt.day % 10) _ (by omega), Option.none_bind,
        finishDate]
  have h4 : fmt4 (encode .dDashMDashY dt) = none := by
    unfold fmt4 raw4
    rw [show pDay (encode DatePattern.dDashMDashY dt) =
        some (dt.day, '-' :: (pad2 dt.month ++ '-' :: pad4 dt.year)) from
      pDay_pad2 dt.day _ hd1 hd2]
    simp only [Option.pure_def, Option.bind_eq_bind, Option.some_bind,
      pLit_slash_of_dash, Option.none_bind, finishDate]
  have h5 : fmt5 (encode .dDashMDashY dt) = none := by
    unfold fmt5 raw5
    rw [show pDay (encode DatePattern.dDashMDashY dt) =
        some (dt.day, '-' :: (pad2 dt.month ++ '-' :: pad4 dt.year)) from
      pDay_pad2 dt.day _ hd1 hd2]
    simp only [Option.pure_def, Option.bind_eq_bind, Option.some_bind,
      pWs_of_dash, Option.none_bind, finishDate]
  have h6 : fmt6 (encode .dDashMDashY dt) = none := by
    have habb : pAbbrev (encode DatePattern.dDashMDashY dt) = none := by
      show pAbbrev (Nat.digitChar (dt.day / 10) :: _) = none
      exact pAbbrev_digitChar _ (by omega)
    unfold fmt6 raw6
    rw [habb]
    simp only [Option.pure_def, Option.bind_eq_bind, Option.none_bind, finishDate]
  have h7 : fmt7 (encode .dDashMDashY dt) = none := by
    unfold fmt7 raw7
    rw [show pYear4 (encode DatePattern.dDashMDashY dt) = none from
      pYear4_pad2_stuck dt.day '-' _ (by decide)]
    simp only [Option.pure_def, Option.bind_eq_bind, Option.none_bind, finishDate]
  have h8 : fmt8 (encode .dDashMDashY dt) = some dt := by
    unfold fmt8 raw8
    rw [show pDay (encode DatePattern.dDashMDashY dt) =
        some (dt.day, '-' :: (pad2 dt.month ++ '-' :: pad4 dt.year)) from
      pDay_pad2 dt.day _ hd1 hd2]
    simp only [Option.pure_def, Option.bind_eq_bind, Option.some_bind, pLit_eq,
      pMonth_pad2_le dt.month ('-' :: pad4 dt.year) hm1 hm2,
      pYear4_pad4_nil dt.year hy2, finishDate, if_pos rfl, mkDate, hv, if_true]
  simp only [parse_date]
  rw [strip_encode .dDashMDashY dt hv, h1, Option.none_orElse, h2,
    Option.none_orElse, h3, Option.none_orElse, h4, Option.none_orElse, h5,
    Option.none_orElse, h6, Option.none_orElse, h7, Option.none_orElse, h8,
    Option.some_orElse]

/-- `"May"` is both the full and the abbreviated name, so `%b` consumes
a full `"May"` with nothing left over. -/
lemma pAbbrev_may (r : Str) : pAbbrev (monthFull 5 ++ r) = some (5, r) := by
  simp +decide [pAbbrev, pName, monthAbbrevTbl, monthFull, stripPrefixCI]

lemma roundtrip_dSpBetaSpY_may (Y D : ℕ) (hv : validDate Y 5 D = true) :
    parse_date (.str (encode .dSpBetaSpY ⟨Y, 5, D⟩)) =
      some (⟨Y, 5, D⟩ : PyDate) := by
  obtain ⟨hy1, hy2, hm1, hm2, hd1, hd2⟩ := validDate_bounds hv
  have h1 : fmt1 (encode .dSpBetaSpY ⟨Y, 5, D⟩) = none := by
    unfold fmt1 raw1
    rw [show pDay (encode DatePattern.dSpBetaSpY ⟨Y, 5, D⟩) =
        some (D, ' ' :: (monthFull 5 ++ ' ' :: pad4 Y)) from
      pDay_pad2 D _ hd1 hd2]
    simp only [Option.pure_def, Option.bind_eq_bind, Option.some_bind,
      pLit_dash_of_sp, Option.none_bind, finishDate]
  have h2 : fmt2 (encode .dSpBetaSpY ⟨Y, 5, D⟩) = none := by
    unfold fmt2 raw2
    rw [show pYear4 (encode DatePattern.dSpBetaSpY ⟨Y, 5, D⟩) = none from
      pYear4_pad2_stuck D ' ' _ (by decide)]
    simp only [Option.pure_def, Option.bind_eq_bind, Option.none_bind, finishDate]
  have h3 : fmt3 (encode .dSpBetaSpY ⟨Y, 5, D⟩) = none := by
    unfold fmt3 raw3
    by_cases hd12 : D ≤ 12
    · rw [show pMonth (encode DatePattern.dSpBetaSpY ⟨Y, 5, D⟩) =
          some (D, ' ' :: (monthFull 5 ++ ' ' :: pad4 Y)) from
        pMonth_pad2_le D _ hd1 hd12]
      simp only [Option.pure_def, Option.bind_eq_bind, Option.some_bind,
        pLit_slash_of_sp, Option.none_bind, finishDate]
    · rw [show pMonth (encode DatePattern.dSpBetaSpY ⟨Y, 5, D⟩) =
          some (D / 10, Nat.digitChar (D % 10) ::
            ' ' :: (monthFull 5 ++ ' ' :: pad4 Y)) from
        pMonth_pad2_gt D _ (by omega) hd2]
      simp only [Option.pure_def, Option.bind_eq_bind, Option.some_bind,
        pLit_slash_of_digit (D % 10) _ (by omega), Option.none_bind, finishDate]
  have h4 : fmt4 (encode .dSpBetaSpY ⟨Y, 5, D⟩) = none := by
    unfold fmt4 raw4
    rw [show pDay (encode DatePattern.dSpBetaSpY ⟨Y, 5, D⟩) =
        some (D, ' ' :: (monthFull 5 ++ ' ' :: pad4 Y)) from
      pDay_pad2 D _ hd1 hd2]
    simp only [Option.pure_def, Option.bind_eq_bind, Option.some_bind,
      pLit_slash_of_sp, Option.none_bind, finishDate]
  have h5 : fmt5 (encode .dSpBetaSpY ⟨Y, 5, D⟩) = some (⟨Y, 5, D⟩ : PyDate) := by
    unfold fmt5 raw5
    rw [show pDay (encode DatePattern.dSpBetaSpY ⟨Y, 5, D⟩) =
        some (D, ' ' :: (monthFull 5 ++ ' ' :: pad4 Y)) from
      pDay_pad2 D _ hd1 hd2]
    simp only [Option.pure_def, Option.bind_eq_bind, Option.some_bind,
      pWs_sp_full 5 (' ' :: pad4 Y) (by decide) (by decide),
      pAbbrev_may (' ' :: pad4 Y), pWs_sp_pad4_nil Y,
      pYear4_pad4_nil Y hy2, finishDate, if_pos rfl, mkDate, hv, if_true]
  simp only [parse_date]
  rw [strip_encode .dSpBetaSpY ⟨Y, 5, D⟩ hv, h1, Option.none_orElse, h2,
    Option.none_orElse, h3, Option.none_orElse, h4, Option.none_orElse, h5,
    Option.some_orElse]

lemma roundtrip_dSpBetaSpY (dt : PyDate)
    (hv : validDate dt.year dt.month dt.day = true) :
    parse_date (.str (encode .dSpBetaSpY dt)) = some dt := by
  by_cases hm5 : dt.month = 5
  · have h := roundtrip_dSpBetaSpY_may dt.year dt.day (by rw [← hm5]; exact hv)
    have hdt : (⟨dt.year, 5, dt.day⟩ : PyDate) = dt := by rw [← hm5]
    rw [hdt] at h
    exact h
  · obtain ⟨hy1, hy2, hm1, hm2, hd1, hd2⟩ := validDate_bounds hv
    have h1 : fmt1 (encode .dSpBetaSpY dt) = none := by
      unfold fmt1 raw1
      rw [show pDay (encode DatePattern.dSpBetaSpY dt) =
          some (dt.day, ' ' :: (monthFull dt.month ++ ' ' :: pad4 dt.year)) from
        pDay_pad2 dt.day _ hd1 hd2]
      simp only [Option.pure_def, Option.bind_eq_bind, Option.some_bind,
        pLit_dash_of_sp, Option.none_bind, finishDate]
    have h2 : fmt2 (encode .dSpBetaSpY dt) = none := by
      unfold fmt2 raw2
      rw [show pYear4 (encode DatePattern.dSpBetaSpY dt) = none from
        pYear4_pad2_stuck dt.day ' ' _ (by decide)]
      simp only [Option.pure_def, Option.bind_eq_bind, Option.none_bind,
        finishDate]
    have h3 : fmt3 (encode .dSpBetaSpY dt) = none := by
      unfold fmt3 raw3
      by_cases hd12 : dt.day ≤ 12
      · rw [show pMonth (encode DatePattern.dSpBetaSpY dt) =
            some (dt.day, ' ' ::
              (monthFull dt.month ++ ' ' :: pad4 dt.year)) from
          pMonth_pad2_le dt.day _ hd1 hd12]
        simp only [Option.pure_def, Option.bind_eq_bind, Option.some_bind,
          pLit_slash_of_sp, Option.none_bind, finishDate]
      · rw [show pMonth (encode DatePattern.dSpBetaSpY dt) =
            some (dt.day / 10, Nat.digitChar (dt.day % 10) ::
              ' ' :: (monthFull dt.month ++ ' ' :: pad4 dt.year)) from
          pMonth_pad2_gt dt.day _ (by omega) hd2]
        simp only [Option.pure_def, Option.bind_eq_bind, Option.some_bind,
          pLit_slash_of_digit (dt.day % 10) _ (by omega), Option.none_bind,
          finishDate]
    have h4 : fmt4 (encode .dSpBetaSpY dt) = none := by
      unfold fmt4 raw4
      rw [show pDay (encode DatePattern.dSpBetaSpY dt) =
          some (dt.day, ' ' :: (monthFull dt.month ++ ' ' :: pad4 dt.year)) from
        pDay_pad2 dt.day _ hd1 hd2]
      simp only [Option.pure_def, Option.bind_eq_bind, Option.some_bind,
        pLit_slash_of_sp, Option.none_bind, finishDate]
    have h5 : fmt5 (encode .dSpBetaSpY dt) = none := by
      unfold fmt5 raw5
      rw [show pDay (encode DatePattern.dSpBetaSpY dt) =
          some (dt.day, ' ' :: (monthFull dt.month ++ ' ' :: pad4 dt.year)) from
        pDay_pad2 dt.day _ hd1 hd2]
      simp only [Option.pure_def, Option.bind_eq_bind, Option.some_bind,
        pWs_sp_full dt.month (' ' :: pad4 dt.year) hm1 hm2,
        pAbbrev_full dt.month (' ' :: pad4 dt.year) hm1 hm2,
        pWs_drop3_full dt.month _ hm1 hm2 hm5, Option.none_bind, finishDate]
    have h6 : fmt6 (encode .dSpBetaSpY dt) = none := by
      have habb : pAbbrev (encode DatePattern.dSpBetaSpY dt) = none := by
        show pAbbrev (Nat.digitChar (dt.day / 10) :: _) = none
        exact pAbbrev_digitChar _ (by omega)
      unfold fmt6 raw6
      rw [habb]
      simp only [Option.pure_def, Option.bind_eq_bind, Option.none_bind,
        finishDate]
    have h7 : fmt7 (encode .dSpBetaSpY dt) = none := by
      unfold fmt7 raw7
      rw [show pYear4 (encode DatePattern.dSpBetaSpY dt) = none from
        pYear4_pad2_stuck dt.day ' ' _ (by decide)]
      simp only [Option.pure_def, Option.bind_eq_bind, Option.none_bind,
        finishDate]
    have h8 : fmt8 (encode .dSpBetaSpY dt) = none := by
      unfold fmt8 raw8
      rw [show pDay (encode DatePattern.dSpBetaSpY dt) =
          some (dt.day, ' ' :: (monthFull dt.month ++ ' ' :: pad4 dt.year)) from
        pDay_pad2 dt.day _ hd1 hd2]
      simp only [Option.pure_def, Option.bind_eq_bind, Option.some_bind,
        pLit_dash_of_sp, Option.none_bind, finishDate]
    have h9 : fmt9 (encode .dSpBetaSpY dt) = some dt := by
      unfold fmt9 raw9
      rw [show pDay (encode DatePattern.dSpBetaSpY dt) =
          some (dt.day, ' ' :: (monthFull dt.month ++ ' ' :: pad4 dt.year)) from
        pDay_pad2 dt.day _ hd1 hd2]
      simp only [Option.pure_def, Option.bind_eq_bind, Option.some_bind,
        pWs_sp_full dt.month (' ' :: pad4 dt.year) hm1 hm2,
        pFull_full dt.month (' ' :: pad4 dt.year) hm1 hm2,
        pWs_sp_pad4_nil dt.year, pYear4_pad4_nil dt.year hy2, finishDate,
        if_pos rfl, mkDate, hv, if_true]
    simp only [parse_date]
    rw [strip_encode .dSpBetaSpY dt hv, h1, Option.none_orElse, h2,
      Option.none_orElse, h3, Option.none_orElse, h4, Option.none_orElse, h5,
      Option.none_orElse, h6, Option.none_orElse, h7, Option.none_orElse, h8,
      Option.none_orElse, h9, Option.some_orElse]

lemma roundtrip_betaSpDCommaY_may (Y D : ℕ) (hv : validDate Y 5 D = true) :
    parse_date (.str (encode .betaSpDCommaY ⟨Y, 5, D⟩)) =
      some (⟨Y, 5, D⟩ : PyDate) := by
  obtain ⟨hy1, hy2, hm1, hm2, hd1, hd2⟩ := validDate_bounds hv
  have h1 : fmt1 (encode .betaSpDCommaY ⟨Y, 5, D⟩) = none := by
    unfold fmt1 raw1
    rw [show pDay (encode DatePattern.betaSpDCommaY ⟨Y, 5, D⟩) = none from
      pNum2_full 31 5 _ (by decide) (by decide)]
    simp only [Option.pure_def, Option.bind_eq_bind, Option.none_bind, finishDate]
  have h2 : fmt2 (encode .betaSpDCommaY ⟨Y, 5, D⟩) = none := by
    unfold fmt2 raw2
    rw [show pYear4 (encode DatePattern.betaSpDCommaY ⟨Y, 5, D⟩) = none from
      pYear4_full 5 _ (by decide) (by decide)]
    simp only [Option.pure_def, Option.bind_eq_bind, Option.none_bind, finishDate]
  have h3 : fmt3 (encode .betaSpDCommaY ⟨Y, 5, D⟩) = none := by
    unfold fmt3 raw3
    rw [show pMonth (encode DatePattern.betaSpDCommaY ⟨Y, 5, D⟩) = none from
      pNum2_full 12 5 _ (by decide) (by decide)]
    simp only [Option.pure_def, Option.bind_eq_bind, Option.none_bind, finishDate]
  have h4 : fmt4 (encode .betaSpDCommaY ⟨Y, 5, D⟩) = none := by
    unfold fmt4 raw4
    rw [show pDay (encode DatePattern.betaSpDCommaY ⟨Y, 5, D⟩) = none from
      pNum2_full 31 5 _ (by decide) (by decide)]
    simp only [Option.pure_def, Option.bind_eq_bind, Option.none_bind, finishDate]
  have h5 : fmt5 (encode .betaSpDCommaY ⟨Y, 5, D⟩) = none := by
    unfold fmt5 raw5
    rw [show pDay (encode DatePattern.betaSpDCommaY ⟨Y, 5, D⟩) = none from
      pNum2_full 31 5 _ (by decide) (by decide)]
    simp only [Option.pure_def, Option.bind_eq_bind, Option.none_bind, finishDate]
  have h6 : fmt6 (encode .betaSpDCommaY ⟨Y, 5, D⟩) =
      some (⟨Y, 5, D⟩ : PyDate) := by
    unfold fmt6 raw6
    rw [show pAbbrev (encode DatePattern.betaSpDCommaY ⟨Y, 5, D⟩) =
        some (5, ' ' :: (pad2 D ++ ',' :: ' ' :: pad4 Y)) from
      pAbbrev_may (' ' :: (pad2 D ++ ',' :: ' ' :: pad4 Y))]
    simp only [Option.pure_def, Option.bind_eq_bind, Option.some_bind,
      pWs_sp_pad2 D (',' :: ' ' :: pad4 Y) (by omega),
      pDay_pad2 D (',' :: ' ' :: pad4 Y) hd1 hd2, pLit_eq,
      pWs_sp_pad4_nil Y, pYear4_pad4_nil Y hy2, finishDate, if_pos rfl,
      mkDate, hv, if_true]
  simp only [parse_date]
  rw [strip_encode .betaSpDCommaY ⟨Y, 5, D⟩ hv, h1, Option.none_orElse, h2,
    Option.none_orElse, h3, Option.none_orElse, h4, Option.none_orElse, h5,
    Option.none_orElse, h6, Option.some_orElse]

lemma roundtrip_betaSpDCommaY (dt : PyDate)
    (hv : validDate dt.year dt.month dt.day = true) :
    parse_date (.str (encode .betaSpDCommaY dt)) = some dt := by
  by_cases hm5 : dt.month = 5
  · have h := roundtrip_betaSpDCommaY_may dt.year dt.day (by rw [← hm5]; exact hv)
    have hdt : (⟨dt.year, 5, dt.day⟩ : PyDate) = dt := by rw [← hm5]
    rw [hdt] at h
    exact h
  · obtain ⟨hy1, hy2, hm1, hm2, hd1, hd2⟩ := validDate_bounds hv
    have h1 : fmt1 (encode .betaSpDCommaY dt) = none := by
      unfold fmt1 raw1
      rw [show pDay (encode DatePattern.betaSpDCommaY dt) = none from
        pNum2_full 31 dt.month _ hm1 hm2]
      simp only [Option.pure_def, Option.bind_eq_bind, Option.none_bind,
        finishDate]
    have h2 : fmt2 (encode .betaSpDCommaY dt) = none := by
      unfold fmt2 raw2
      rw [show pYear4 (encode DatePattern.betaSpDCommaY dt) = none from
        pYear4_full dt.month _ hm1 hm2]
      simp only [Option.pure_def, Option.bind_eq_bind, Option.none_bind,
        finishDate]
    have h3 : fmt3 (encode .betaSpDCommaY dt) = none := by
      unfold fmt3 raw3
      rw [show pMonth (encode DatePattern.betaSpDCommaY dt) = none from
        pNum2_full 12 dt.month _ hm1 hm2]
      simp only [Option.pure_def, Option.bind_eq_bind, Option.none_bind,
        finishDate]
    have h4 : fmt4 (encode .betaSpDCommaY dt) = none := by
      unfold fmt4 raw4
      rw [show pDay (encode DatePattern.betaSpDCommaY dt) = none from
        pNum2_full 31 dt.month _ hm1 hm2]
      simp only [Option.pure_def, Option.bind_eq_bind, Option.none_bind,
        finishDate]
    have h5 : fmt5 (encode .betaSpDCommaY dt) = none := by
      unfold fmt5 raw5
      rw [show pDay (encode DatePattern.betaSpDCommaY dt) = none from
        pNum2_full 31 dt.month _ hm1 hm2]
      simp only [Option.pure_def, Option.bind_eq_bind, Option.none_bind,
        finishDate]
    have h6 : fmt6 (encode .betaSpDCommaY dt) = none := by
      unfold fmt6 raw6
      rw [show pAbbrev (encode DatePattern.betaSpDCommaY dt) =
          some (dt.month, (monthFull dt.month).drop 3 ++
            ' ' :: (pad2 dt.day ++ ',' :: ' ' :: pad4 dt.year)) from
        pAbbrev_full dt.month _ hm1 hm2]
      simp only [Option.pure_def, Option.bind_eq_bind, Option.some_bind,
        pWs_drop3_full dt.month _ hm1 hm2 hm5, Option.none_bind, finishDate]
    have h7 : fmt7 (encode .betaSpDCommaY dt) = none := by
      unfold fmt7 raw7
      rw [show pYear4 (encode DatePattern.betaSpDCommaY dt) = none from
        pYear4_full dt.month _ hm1 hm2]
      simp only [Option.pure_def, Option.bind_eq_bind, Option.none_bind,
        finishDate]
    have h8 : fmt8 (encode .betaSpDCommaY dt) = none := by
      unfold fmt8 raw8
      rw [show pDay (encode DatePattern.betaSpDCommaY dt) = none from
        pNum2_full 31 dt.month _ hm1 hm2]
      simp only [Option.pure_def, Option.bind_eq_bind, Option.none_bind,
        finishDate]
    have h9 : fmt9 (encode .betaSpDCommaY dt) = none := by
      unfold fmt9 raw9
      rw [show pDay (encode DatePattern.betaSpDCommaY dt) = none from
        pNum2_full 31 dt.month _ hm1 hm2]
      simp only [Option.pure_def, Option.bind_eq_bind, Option.none_bind,
        finishDate]
    have h10 : fmt10 (encode .betaSpDCommaY dt) = some dt := by
      unfold fmt10 raw10
      rw [show pFull (encode DatePattern.betaSpDCommaY dt) =
          some (dt.month, ' ' :: (pad2 dt.day ++ ',' :: ' ' :: pad4 dt.year)) from
        pFull_full dt.month _ hm1 hm2]
      simp only [Option.pure_def, Option.bind_eq_bind, Option.some_bind,
        pWs_sp_pad2 dt.day (',' :: ' ' :: pad4 dt.year) (by omega),
        pDay_pad2 dt.day (',' :: ' ' :: pad4 dt.year) hd1 hd2, pLit_eq,
        pWs_sp_pad4_nil dt.year, pYear4_pad4_nil dt.year hy2, finishDate,
        if_pos rfl, mkDate, hv, if_true]
    simp only [parse_date]
    rw [strip_encode .betaSpDCommaY dt hv, h1, Option.none_orElse, h2,
      Option.none_orElse, h3, Option.none_orElse, h4, Option.none_orElse, h5,
      Option.none_orElse, h6, Option.none_orElse, h7, Option.none_orElse, h8,
      Option.none_orElse, h9, Option.none_orElse, h10]

/-- C5 (corrected): encoding a valid calendar date (year ≥ 1000) with any
of the ten supported patterns and re-parsing it with `parse_date` yields
`roundTripResult`: the same date for nine patterns, but the `"%d/%m/%Y"`
encoding of a date with `day ≤ 12` is captured by the earlier `"%m/%d/%Y"`
pattern, so its day and month come back swapped.  A non-string input
yields `None`.  The claim as stated (the same date always comes back,
independent of the encoding pattern) is therefore false. -/
theorem date_roundtrip_rule :
    (∀ p dt, validDate dt.year dt.month dt.day = true → 1000 ≤ dt.year →
      parse_date (.str (encode p dt)) = some (roundTripResult p dt)) ∧
    parse_date .nonStr = none := by
  refine ⟨fun p dt hv hy => ?_, rfl⟩
  cases p
  case dDashBDashY => exact roundtrip_dDashBDashY dt hv
  case yDashMDashD => exact roundtrip_yDashMDashD dt hv hy
  case mSlashDSlashY => exact roundtrip_mSlashDSlashY dt hv
  case dSlashMSlashY => exact roundtrip_dSlashMSlashY dt hv
  case dSpBSpY => exact roundtrip_dSpBSpY dt hv
  case bSpDCommaY => exact roundtrip_bSpDCommaY dt hv
  case ySlashMSlashD => exact roundtrip_ySlashMSlashD dt hv hy
  case dDashMDashY => exact roundtrip_dDashMDashY dt hv
  case dSpBetaSpY => exact roundtrip_dSpBetaSpY dt hv
  case betaSpDCommaY => exact roundtrip_betaSpDCommaY dt hv

/-- C5 counterexample: 1 Feb 2025 encoded as `"%d/%m/%Y"` gives
`"01/02/2025"`, which `parse_date` reads with the earlier `"%m/%d/%Y"`
pattern as 2 Jan 2025 — a different calendar date, so the round trip is
not pattern-independent. -/
theorem date_roundtrip_claim_counterexample :
    validDate 2025 2 1 = true ∧
    encode .dSlashMSlashY ⟨2025, 2, 1⟩ = "01/02/2025".data ∧
    parse_date (.str (encode .dSlashMSlashY ⟨2025, 2, 1⟩)) =
      some (⟨2025, 1, 2⟩ : PyDate) ∧
    (⟨2025, 1, 2⟩ : PyDate) ≠ ⟨2025, 2, 1⟩ := by
  decide

/-- Witness for C5 at a concrete date. -/
theorem date_roundtrip_rule_witness :
    validDate 2025 10 26 = true ∧ 1000 ≤ 2025 ∧
    parse_date (.str (encode .dDashBDashY ⟨2025, 10, 26⟩)) =
      some (roundTripResult .dDashBDashY ⟨2025, 10, 26⟩) :=
  ⟨by decide, by decide,
   date_roundtrip_rule.1 .dDashBDashY ⟨2025, 10, 26⟩ (by decide) (by decide)⟩

end Pullus
